import Mathlib

/-!
Shallow embedding of the CCT backend core (temperature ingestion, target
temperatures, trigger evaluation, notifications, device/probe registration
and API-key authentication), translated from the Python sources under
`backend/app`.  Tables are lists of rows kept in insertion order; SQLAlchemy
`first()` is `List.find?`, `order_by(... .desc())` is an insertion sort on the
key, primary keys are drawn from a `nextId` counter and wall-clock time is a
logical `now : Nat` counter (seconds).  Temperatures are rationals.
-/

namespace CCT

/-- Seconds in a day, used for token and API-key expiries. -/
def daySeconds : Nat := 86400

/-- Row of the `users` table (`models.User`). -/
structure User where
  id : Nat
  username : String
  email : Option String
  phone_number : Option String
  is_active : Bool
deriving DecidableEq, Repr

/-- Row of the `cct_devices` table (`models.CCTDevice`). -/
structure Device where
  id : Nat
  device_id : String
  name : Option String
  model : String
  firmware_version : String
  is_active : Bool
  last_connected : Option Nat
deriving DecidableEq, Repr

/-- Row of the `probes` table (`models.Probe`). -/
structure Probe where
  id : Nat
  probe_id : String
  name : Option String
  model : String
  is_connected : Bool
  last_connected : Option Nat
  device_id : Nat
deriving DecidableEq, Repr

/-- Row of the `temperature_readings` table (`models.TemperatureReading`). -/
structure TemperatureReading where
  id : Nat
  temperature : Rat
  timestamp : Nat
  device_id : Nat
  probe_id : Option Nat
  is_average : Bool
deriving DecidableEq, Repr

/-- Row of the `target_temperatures` table (`models.TargetTemperature`). -/
structure TargetTemperature where
  id : Nat
  temperature : Rat
  timestamp : Nat
  device_id : Nat
  set_by_user_id : Option Nat
  is_active : Bool
deriving DecidableEq, Repr

/-- Row of the `notification_settings` table (`models.NotificationSetting`). -/
structure NotificationSetting where
  id : Nat
  user_id : Nat
  email_enabled : Bool
  sms_enabled : Bool
  push_enabled : Bool
  max_temp_threshold : Option Rat
  min_temp_threshold : Option Rat
  connection_alerts : Bool
deriving DecidableEq, Repr

/-- Row of the `custom_triggers` table (`models.CustomTrigger`). -/
structure CustomTrigger where
  id : Nat
  notification_setting_id : Option Nat
  name : String
  condition_type : String
  threshold_value : Rat
  device_id : Option Nat
  probe_id : Option Nat
  is_active : Bool
deriving DecidableEq, Repr

/-- Row of the `notifications` table (`models.Notification`). -/
structure Notification where
  id : Nat
  user_id : Option Nat
  title : String
  message : String
  notification_type : String
  channel : String
  is_read : Bool
  device_id : Option Nat
  probe_id : Option Nat
  created_at : Nat
deriving DecidableEq, Repr

/-- Payload of a JWT as built by `auth.create_access_token`:
`sub` and `type` claims plus the `exp` timestamp (seconds). -/
structure JwtPayload where
  sub : Option String
  typ : Option String
  exp : Nat
deriving DecidableEq, Repr

/-- A signed token: the payload together with the secret it was signed with.
`jwt.encode` pairs them; `jwt.decode` succeeds only when the verifying secret
matches and the token is unexpired. -/
structure Jwt where
  payload : JwtPayload
  signedWith : String
deriving DecidableEq, Repr

/-- Row of the `api_keys` table (`models.APIKey`), as inserted by the raw SQL
in `device_service.register_device`. -/
structure APIKeyRow where
  key : Jwt
  device_id : Nat
  expires_at : Nat
  is_active : Bool
deriving DecidableEq, Repr

/-- The persistent store: one list per table, in insertion order, plus the
primary-key counter and the logical clock. -/
structure DB where
  users : List User
  devices : List Device
  probes : List Probe
  user_device_association : List (Nat × Nat)
  readings : List TemperatureReading
  targets : List TargetTemperature
  notification_settings : List NotificationSetting
  triggers : List CustomTrigger
  notifications : List Notification
  api_keys : List APIKeyRow
  nextId : Nat
  now : Nat
deriving DecidableEq, Repr

/-- The empty store; primary keys start at 1 as in PostgreSQL sequences. -/
def DB.empty : DB :=
  { users := [], devices := [], probes := [], user_device_association := []
    readings := [], targets := [], notification_settings := [], triggers := []
    notifications := [], api_keys := [], nextId := 1, now := 0 }

/-- Process-wide configuration (`config.Settings`), with the environment
defaults from `config.py`. -/
structure Config where
  SECRET_KEY : String
  EMAIL_ENABLED : Bool
  SMS_ENABLED : Bool
  PUSH_ENABLED : Bool
  MAX_PROBES_PER_CCT : Nat
  CONNECTION_TIMEOUT_SECONDS : Nat
  ACCESS_TOKEN_EXPIRE_MINUTES : Nat
deriving DecidableEq, Repr

/-- Defaults of `config.Settings` when no environment overrides are set. -/
def defaultConfig : Config :=
  { SECRET_KEY := "rWN2mG8GqRQV762w"
    EMAIL_ENABLED := false
    SMS_ENABLED := false
    PUSH_ENABLED := true
    MAX_PROBES_PER_CCT := 4
    CONNECTION_TIMEOUT_SECONDS := 60
    ACCESS_TOKEN_EXPIRE_MINUTES := 30 }

/-- Python truthiness of a string (the empty string is falsy), on the
character list so that it evaluates by kernel reduction. -/
def strTruthy (s : String) : Bool := !s.data.isEmpty

/-- Python truthiness of an optional string (None and the empty string are
falsy). -/
def truthy : Option String → Bool
  | none => false
  | some s => strTruthy s

/-- `db.query(CCTDevice).filter(CCTDevice.device_id == device_id).first()` -/
def findDevice (db : DB) (device_id : String) : Option Device :=
  db.devices.find? (fun d => d.device_id == device_id)

/-- `db.query(Probe).filter(Probe.probe_id == probe_id).first()` -/
def findProbe (db : DB) (probe_id : String) : Option Probe :=
  db.probes.find? (fun p => p.probe_id == probe_id)

/-- `db.query(User).filter(User.id == user_id).first()` -/
def findUser (db : DB) (user_id : Nat) : Option User :=
  db.users.find? (fun u => u.id == user_id)

/-- `db.query(NotificationSetting).filter(NotificationSetting.user_id == user_id).first()` -/
def findSetting (db : DB) (user_id : Nat) : Option NotificationSetting :=
  db.notification_settings.find? (fun s => s.user_id == user_id)

/-- Replace the first list element satisfying the predicate (an ORM row
update mutates the matching row in place). -/
def replaceFirstBy (p : α → Bool) (new : α) : List α → List α
  | [] => []
  | x :: xs => if p x then new :: xs else x :: replaceFirstBy p new xs

/-- Insert into a list kept in descending key order (newest first),
keeping earlier elements first on ties. -/
def insertDescBy (key : α → Nat) (x : α) : List α → List α
  | [] => [x]
  | y :: ys => if key y < key x then x :: y :: ys else y :: insertDescBy key x ys

/-- `order_by(col.desc())`: sort a list into descending key order. -/
def sortDescBy (key : α → Nat) : List α → List α
  | [] => []
  | x :: xs => insertDescBy key x (sortDescBy key xs)

/-- Sequentially run a fallible per-element action over a list, stopping at
the first raised exception, as a Python `for` loop over `db` operations does. -/
def foldE (f : DB → α → DB × Except String Unit) : DB → List α → DB × Except String Unit
  | db, [] => (db, Except.ok ())
  | db, x :: xs =>
    match f db x with
    | (db2, Except.ok _) => foldE f db2 xs
    | (db2, Except.error e) => (db2, Except.error e)

/-- Forget the value of a fallible result, keeping the state and the
exception. -/
def discardR (r : DB × Except String α) : DB × Except String Unit :=
  (r.1, r.2.map (fun _ => ()))

/-! ### Credential gate (`utils/auth.py`) -/

/-- `jwt.encode(to_encode, SECRET_KEY, algorithm=ALGORITHM)`. -/
def jwtEncode (payload : JwtPayload) (secret : String) : Jwt :=
  { payload := payload, signedWith := secret }

/-- `jwt.decode(token, secret, algorithms=[ALGORITHM])`: fails on a signature
mismatch, and raises `ExpiredSignatureError` (a `JWTError`) when the `exp`
claim lies strictly in the past. -/
def jwtDecode (token : Jwt) (secret : String) (now : Nat) : Except String JwtPayload :=
  if token.signedWith ≠ secret then Except.error "JWTError: invalid signature"
  else if token.payload.exp < now then Except.error "JWTError: signature has expired"
  else Except.ok token.payload

/-- `auth.create_access_token`: signs the claims with an `exp` of now plus the
given lifetime in seconds. -/
def create_access_token (cfg : Config) (sub typ : Option String)
    (expires_delta : Nat) (now : Nat) : Jwt :=
  jwtEncode { sub := sub, typ := typ, exp := now + expires_delta } cfg.SECRET_KEY

/-- `auth.create_device_api_key`: signs `sub = device_id, type = "device"`
with `expires_delta = timedelta(days=365)`. -/
def create_device_api_key (cfg : Config) (device_id : String) (now : Nat) : Jwt :=
  create_access_token cfg (some device_id) (some "device") (365 * daySeconds) now

/-- `auth.verify_device_exists`: the device row with this `device_id` is
present. -/
def verify_device_exists (db : DB) (device_id : String) : Bool :=
  (findDevice db device_id).isSome

/-- `auth.verify_device_api_key`: decode (signature and expiry), then compare
the `sub` and `type` claims, then require the device row to exist; any
`JWTError` yields `false`. -/
def verify_device_api_key (cfg : Config) (db : DB) (api_key : Jwt)
    (device_id : String) : Bool :=
  match jwtDecode api_key cfg.SECRET_KEY db.now with
  | Except.error _ => false
  | Except.ok payload =>
    if payload.sub ≠ some device_id ∨ payload.typ ≠ some "device" then false
    else verify_device_exists db device_id

/-! ### Temperature pipeline (`services/temperature_service.py`) -/

/-- Trigger-condition evaluation inlined in `store_temperature_reading`
(the direct-ingestion path): `equal` is exact float equality. -/
def trigger_condition_store (condition_type : String) (temperature threshold : Rat) : Bool :=
  (condition_type == "above" && decide (temperature > threshold)) ||
  (condition_type == "below" && decide (temperature < threshold)) ||
  (condition_type == "equal" && decide (temperature = threshold))

/-- Trigger-condition evaluation inlined in
`notification_service.check_temperature_triggers` (the threshold-engine
path): `equal` is a tolerance of 0.5. -/
def trigger_condition_check (condition_type : String) (temperature threshold : Rat) : Bool :=
  if condition_type == "above" then decide (temperature > threshold)
  else if condition_type == "below" then decide (temperature < threshold)
  else if condition_type == "equal" then decide (|temperature - threshold| < (1 : Rat) / 2)
  else false

/-- The owning user of a custom trigger: `trigger.notification_setting.user_id`
when the trigger has a notification setting, else `None`. -/
def triggerOwner (db : DB) (t : CustomTrigger) : Option Nat :=
  t.notification_setting_id.bind
    (fun sid => (db.notification_settings.find? (fun s => s.id == sid)).map
      (fun s => s.user_id))

/-- Append a notification row (`db.add(Notification(...)); db.commit()`). -/
def addNotification (db : DB) (user_id : Option Nat) (title message ntype channel : String)
    (device_id probe_id : Option Nat) : DB :=
  { db with
    notifications := db.notifications ++
      [{ id := db.nextId, user_id := user_id, title := title, message := message
         notification_type := ntype, channel := channel, is_read := false
         device_id := device_id, probe_id := probe_id, created_at := db.now }]
    nextId := db.nextId + 1 }

/-- One iteration of the trigger loop in `store_temperature_reading`: skip a
probe-scoped trigger unless the probe matches, evaluate the condition, and on
a match insert a `temperature_alert` notification on channel `app` attributed
to the trigger's owning user. -/
def storeTrigger (device : Device) (probe : Option Probe) (temperature : Rat)
    (db : DB) (t : CustomTrigger) : DB :=
  let probeSkip : Bool :=
    match t.probe_id with
    | some pid =>
      match probe with
      | none => true
      | some p => pid != p.id
    | none => false
  if probeSkip then db
  else if trigger_condition_store t.condition_type temperature t.threshold_value then
    addNotification db (triggerOwner db t)
      ("Temperature " ++ t.condition_type ++ " " ++ toString t.threshold_value)
      ("Probe " ++ (match probe with | some p => p.probe_id | none => "N/A") ++ ": "
        ++ toString temperature ++ " F")
      "temperature_alert" "app" (some device.id) (probe.map (fun p => p.id))
  else db

/-- Active triggers queried for the stored reading's device:
`filter(CustomTrigger.device_id == device.id, CustomTrigger.is_active == True)`.
A SQL `NULL` device scope never equals `device.id`. -/
def relevantStoreTriggers (db : DB) (device : Device) : List CustomTrigger :=
  db.triggers.filter (fun t => t.device_id == some device.id && t.is_active)

/-- Body of `store_temperature_reading` after the device and probe lookups
succeeded: insert the reading, refresh device and probe liveness, then run
the direct custom-trigger loop. -/
def storeCore (db : DB) (device : Device) (probe : Option Probe)
    (temperature : Rat) (is_average : Bool) : DB × TemperatureReading :=
  let reading : TemperatureReading :=
    { id := db.nextId, temperature := temperature, timestamp := db.now
      device_id := device.id, probe_id := probe.map (fun p => p.id)
      is_average := is_average }
  let db1 : DB :=
    { db with readings := db.readings ++ [reading], nextId := db.nextId + 1 }
  let device1 : Device := { device with last_connected := some db.now }
  let db2 : DB :=
    { db1 with devices := replaceFirstBy (fun d => d.id == device.id) device1 db1.devices }
  let db3 : DB :=
    match probe with
    | some p =>
      let p1 : Probe := { p with is_connected := true, last_connected := some db.now }
      { db2 with probes := replaceFirstBy (fun q => q.id == p.id) p1 db2.probes }
    | none => db2
  let db4 : DB :=
    (relevantStoreTriggers db3 device).foldl (storeTrigger device probe temperature) db3
  ({ db4 with now := db4.now + 1 }, reading)

/-- `temperature_service.store_temperature_reading`: device must exist, a
given probe must exist, then `storeCore`. -/
def store_temperature_reading (db : DB) (device_id : String) (temperature : Rat)
    (probe_id : Option String) (is_average : Bool) :
    DB × Except String TemperatureReading :=
  match findDevice db device_id with
  | none => (db, Except.error ("Device with ID " ++ device_id ++ " not found"))
  | some device =>
    match probe_id with
    | some pid =>
      match findProbe db pid with
      | none => (db, Except.error ("Probe with ID " ++ pid ++ " not found"))
      | some probe =>
        let r := storeCore db device (some probe) temperature is_average
        (r.1, Except.ok r.2)
    | none =>
      let r := storeCore db device none temperature is_average
      (r.1, Except.ok r.2)

/-- `temperature_service.get_latest_target_temperature`: the most recent
active target-temperature row of the device, or `None`. -/
def get_latest_target_temperature (db : DB) (device_id : String) :
    Option TargetTemperature :=
  (findDevice db device_id).bind (fun device =>
    (sortDescBy (fun t => t.timestamp)
      (db.targets.filter (fun t => t.device_id == device.id && t.is_active))).head?)

/-- One per-probe entry of a `TemperatureUpdateRequest.readings` dict. -/
structure ProbeReadingEntry where
  probe_id : Option String
  temperature : Option Rat
deriving DecidableEq, Repr

/-- `schemas.TemperatureUpdateRequest`. -/
structure TemperatureUpdateRequest where
  device_id : String
  readings : List ProbeReadingEntry
  average_temperature : Option Rat
deriving DecidableEq, Repr

/-- `schemas.TemperatureUpdateResponse`. -/
structure TemperatureUpdateResponse where
  message : String
  target_temperature : Option Rat
deriving DecidableEq, Repr

/-- One iteration of the per-probe loop of
`temperature_service.process_temperature_update`: entries without a
temperature are skipped, the rest are stored as non-average readings. -/
def processEntry (device_id : String) (db : DB) (r : ProbeReadingEntry) :
    DB × Except String Unit :=
  match r.temperature with
  | none => (db, Except.ok ())
  | some t => discardR (store_temperature_reading db device_id t r.probe_id false)

/-- `temperature_service.process_temperature_update`: store each supplied
per-probe reading (skipping entries without a temperature) as a non-average
reading, then the average reading when given, then return the device's
current active target temperature. -/
def process_temperature_update (db : DB) (update : TemperatureUpdateRequest) :
    DB × Except String TemperatureUpdateResponse :=
  let step := foldE (processEntry update.device_id) db update.readings
  match step with
  | (db1, Except.error e) => (db1, Except.error e)
  | (db1, Except.ok _) =>
    let afterAvg : DB × Except String Unit :=
      match update.average_temperature with
      | some avg => discardR (store_temperature_reading db1 update.device_id avg none true)
      | none => (db1, Except.ok ())
    match afterAvg with
    | (db2, Except.error e) => (db2, Except.error e)
    | (db2, Except.ok _) =>
      let target := get_latest_target_temperature db2 update.device_id
      (db2, Except.ok
        { message := "Temperature readings received successfully"
          target_temperature := target.map (fun t => t.temperature) })

/-- `temperature_service.get_temperature_history`: unknown device yields `[]`;
the probe filter is applied only when the supplied `probe_id` resolves to a
probe row; the `is_average` filter applies when supplied; the result is
ordered newest first and capped at `limit`. -/
def get_temperature_history (db : DB) (device_id : String)
    (probe_id : Option String) (limit : Nat) (is_average : Option Bool) :
    List TemperatureReading :=
  match findDevice db device_id with
  | none => []
  | some device =>
    let q0 := db.readings.filter (fun r => r.device_id == device.id)
    let q1 :=
      match probe_id with
      | some pid =>
        match findProbe db pid with
        | some probe => q0.filter (fun r => r.probe_id == some probe.id)
        | none => q0
      | none => q0
    let q2 :=
      match is_average with
      | some b => q1.filter (fun r => r.is_average == b)
      | none => q1
    (sortDescBy (fun r => r.timestamp) q2).take limit

/-- The deactivation loop shared verbatim by `set_target_temperature`,
`update_target_temperature_from_device` and
`update_target_temperature_from_cloud`: flip `is_active` off on every active
target-temperature row of the device. -/
def deactivateTargets (devId : Nat) (ts : List TargetTemperature) :
    List TargetTemperature :=
  ts.map (fun t =>
    if t.device_id == devId && t.is_active then { t with is_active := false } else t)

/-- `temperature_service.set_target_temperature`: device must exist;
deactivate every active target-temperature row of the device, then insert a
new active row. -/
def set_target_temperature (db : DB) (device_id : String) (temperature : Rat)
    (set_by_user_id : Option Nat) : DB × Except String TargetTemperature :=
  match findDevice db device_id with
  | none => (db, Except.error ("Device with ID " ++ device_id ++ " not found"))
  | some device =>
    let deactivated := deactivateTargets device.id db.targets
    let newTarget : TargetTemperature :=
      { id := db.nextId, temperature := temperature, timestamp := db.now
        device_id := device.id, set_by_user_id := set_by_user_id, is_active := true }
    let newTargets := deactivated ++ [newTarget]
    ({ db with targets := newTargets, nextId := db.nextId + 1, now := db.now + 1 },
      Except.ok newTarget)

/-- Latest non-average reading of a probe (ordered newest first, `first()`). -/
def latestProbeReading (db : DB) (p : Probe) : Option TemperatureReading :=
  (sortDescBy (fun r => r.timestamp)
    (db.readings.filter (fun r => r.probe_id == some p.id && r.is_average == false))).head?

/-- The connected probes of a device. -/
def connectedProbes (db : DB) (device : Device) : List Probe :=
  db.probes.filter (fun p => p.device_id == device.id && p.is_connected)

/-- The latest-temperature list the average is computed over: the most
recent non-average reading of each connected probe, probes without readings
skipped. -/
def deviceTemps (db : DB) (device : Device) : List Rat :=
  (connectedProbes db device).filterMap
    (fun p => (latestProbeReading db p).map (fun r => r.temperature))

/-- `temperature_service.calculate_average_temperature`: the mean of the
latest non-average reading of each connected probe of the device; `None` when
the device is unknown, has no connected probe, or no connected probe has a
reading. -/
def calculate_average_temperature (db : DB) (device_id : String) : Option Rat :=
  match findDevice db device_id with
  | none => none
  | some device =>
    let probes := connectedProbes db device
    if probes.isEmpty then none
    else
      let temperatures := deviceTemps db device
      if temperatures.isEmpty then none
      else some (temperatures.sum / temperatures.length)

/-! ### Settings service (`services/settings_service.py`) -/

/-- `settings_service.update_target_temperature_from_device`: like
`set_target_temperature` with no setting user, also refreshing the device's
`last_connected`. -/
def update_target_temperature_from_device (db : DB) (device_id : String)
    (temperature : Rat) : DB × Except String TargetTemperature :=
  match findDevice db device_id with
  | none => (db, Except.error ("Device with ID " ++ device_id ++ " not found"))
  | some device =>
    let deactivated := deactivateTargets device.id db.targets
    let newTarget : TargetTemperature :=
      { id := db.nextId, temperature := temperature, timestamp := db.now
        device_id := device.id, set_by_user_id := none, is_active := true }
    let newTargets := deactivated ++ [newTarget]
    let device1 : Device := { device with last_connected := some db.now }
    let newDevices := replaceFirstBy (fun d => d.id == device.id) device1 db.devices
    let db1 : DB := { db with targets := newTargets, devices := newDevices }
    ({ db1 with nextId := db.nextId + 1, now := db.now + 1 }, Except.ok newTarget)

/-- `settings_service.update_target_temperature_from_cloud`: device must
exist, the user must be associated with it, then deactivate-and-insert as in
`set_target_temperature`, recording the setting user. -/
def update_target_temperature_from_cloud (db : DB) (device_id : String)
    (temperature : Rat) (user_id : Nat) : DB × Except String TargetTemperature :=
  match findDevice db device_id with
  | none => (db, Except.error ("Device with ID " ++ device_id ++ " not found"))
  | some device =>
    if (db.user_device_association.find?
        (fun a => a.1 == user_id && a.2 == device.id)).isNone then
      (db, Except.error ("User with ID " ++ toString user_id ++
        " is not associated with device " ++ device_id))
    else
      let deactivated := deactivateTargets device.id db.targets
      let newTarget : TargetTemperature :=
        { id := db.nextId, temperature := temperature, timestamp := db.now
          device_id := device.id, set_by_user_id := some user_id, is_active := true }
      let newTargets := deactivated ++ [newTarget]
      ({ db with targets := newTargets, nextId := db.nextId + 1, now := db.now + 1 },
        Except.ok newTarget)

/-! ### Notification engine (`services/notification_service.py`) -/

/-- `EmailNotificationChannel.send_notification`: fails when email is globally
disabled or the user has no email address. -/
def email_channel_send (cfg : Config) (user : User) : Bool :=
  cfg.EMAIL_ENABLED && truthy user.email

/-- `SMSNotificationChannel.send_notification`: fails when SMS is globally
disabled or the user has no phone number. -/
def sms_channel_send (cfg : Config) (user : User) : Bool :=
  cfg.SMS_ENABLED && truthy user.phone_number

/-- `PushNotificationChannel.send_notification`: fails only when push is
globally disabled. -/
def push_channel_send (cfg : Config) (_user : User) : Bool :=
  cfg.PUSH_ENABLED

/-- Per-channel outcome map returned by `send_notification`; `none` means the
channel was disabled in the user's settings and never attempted. -/
structure SendResults where
  email : Option Bool
  sms : Option Bool
  push : Option Bool
deriving DecidableEq, Repr

/-- The lazily-created default `NotificationSetting` used by
`send_notification` when a user has none yet. -/
def getOrCreateSettings (db : DB) (user_id : Nat) : DB × NotificationSetting :=
  match findSetting db user_id with
  | some s => (db, s)
  | none =>
    let s : NotificationSetting :=
      { id := db.nextId, user_id := user_id, email_enabled := true
        sms_enabled := false, push_enabled := true, max_temp_threshold := none
        min_temp_threshold := none, connection_alerts := true }
    let newSettings := db.notification_settings ++ [s]
    ({ db with notification_settings := newSettings, nextId := db.nextId + 1 }, s)

/-- `notification_service.send_notification`: load (or create) the user's
settings, try each enabled channel in dict order (email, sms, push), persist
a notification row per channel that reports success, and return the
per-channel result map.  Raises when the user does not exist. -/
def send_notification (cfg : Config) (db : DB) (user_id : Nat)
    (title message ntype : String) (device_id probe_id : Option Nat) :
    DB × Except String SendResults :=
  match findUser db user_id with
  | none => (db, Except.error ("User with ID " ++ toString user_id ++ " not found"))
  | some user =>
    let r0 := getOrCreateSettings db user_id
    let s := r0.2
    let emailRes : Option Bool :=
      if s.email_enabled then some (email_channel_send cfg user) else none
    let db1 :=
      if emailRes == some true then
        addNotification r0.1 (some user_id) title message ntype "email" device_id probe_id
      else r0.1
    let smsRes : Option Bool :=
      if s.sms_enabled then some (sms_channel_send cfg user) else none
    let db2 :=
      if smsRes == some true then
        addNotification db1 (some user_id) title message ntype "sms" device_id probe_id
      else db1
    let pushRes : Option Bool :=
      if s.push_enabled then some (push_channel_send cfg user) else none
    let db3 :=
      if pushRes == some true then
        addNotification db2 (some user_id) title message ntype "push" device_id probe_id
      else db2
    (db3, Except.ok { email := emailRes, sms := smsRes, push := pushRes })

/-- Python `f" ({probe.name})" if probe and probe.name else ""`. -/
def probeNameSuffix (probe : Option Probe) : String :=
  match probe with
  | some p =>
    match p.name with
    | some n => if n.data.isEmpty then "" else " (" ++ n ++ ")"
    | none => ""
  | none => ""

/-- Python `device.name or device.device_id`. -/
def deviceDisplayName (device : Device) : String :=
  match device.name with
  | some n => if n.data.isEmpty then device.device_id else n
  | none => device.device_id

/-- The users associated with a device (`device.owners`). -/
def owners (db : DB) (device : Device) : List User :=
  db.users.filter (fun u =>
    db.user_device_association.any (fun a => a.1 == u.id && a.2 == device.id))

/-- The custom triggers belonging to a notification setting
(`settings.custom_triggers`). -/
def settingsTriggers (db : DB) (s : NotificationSetting) : List CustomTrigger :=
  db.triggers.filter (fun t => t.notification_setting_id == some s.id)

/-- The global max-threshold rule of `check_temperature_triggers` for one
owner: fire a High Temperature Alert when the threshold is set and exceeded. -/
def maxThresholdCheck (cfg : Config) (device : Device) (temperature : Rat)
    (probe : Option Probe) (owner : User) (s : NotificationSetting) (db : DB) :
    DB × Except String Unit :=
  match s.max_temp_threshold with
  | some m =>
    if temperature > m then
      discardR (send_notification cfg db owner.id "High Temperature Alert"
        ("Temperature for " ++ deviceDisplayName device ++ probeNameSuffix probe
          ++ " has exceeded the maximum threshold. Current temperature: "
          ++ toString temperature ++ " F (Threshold: " ++ toString m ++ " F)")
        "temperature_alert" (some device.id) (probe.map (fun p => p.id)))
    else (db, Except.ok ())
  | none => (db, Except.ok ())

/-- The global min-threshold rule of `check_temperature_triggers` for one
owner: fire a Low Temperature Alert when the threshold is set and undercut. -/
def minThresholdCheck (cfg : Config) (device : Device) (temperature : Rat)
    (probe : Option Probe) (owner : User) (s : NotificationSetting) (db : DB) :
    DB × Except String Unit :=
  match s.min_temp_threshold with
  | some m =>
    if temperature < m then
      discardR (send_notification cfg db owner.id "Low Temperature Alert"
        ("Temperature for " ++ deviceDisplayName device ++ probeNameSuffix probe
          ++ " has fallen below the minimum threshold. Current temperature: "
          ++ toString temperature ++ " F (Threshold: " ++ toString m ++ " F)")
        "temperature_alert" (some device.id) (probe.map (fun p => p.id)))
    else (db, Except.ok ())
  | none => (db, Except.ok ())

/-- One custom trigger of one owner in `check_temperature_triggers`: skip
when inactive, scoped to another device, or scoped to a missing or other
probe; else evaluate the condition (tolerant `equal`) and on a match fire a
Custom Temperature Alert of type `custom_trigger`. -/
def checkTrigger (cfg : Config) (device : Device) (temperature : Rat)
    (probe : Option Probe) (owner : User) (db : DB) (t : CustomTrigger) :
    DB × Except String Unit :=
  if !t.is_active then (db, Except.ok ())
  else if (match t.device_id with
    | some d => d != device.id
    | none => false) then (db, Except.ok ())
  else if (match t.probe_id with
    | some pid =>
      match probe with
      | none => true
      | some p => pid != p.id
    | none => false) then (db, Except.ok ())
  else if trigger_condition_check t.condition_type temperature t.threshold_value then
    discardR (send_notification cfg db owner.id
      ("Custom Temperature Alert: " ++ t.name)
      ("Temperature for " ++ deviceDisplayName device ++ probeNameSuffix probe
        ++ " has triggered a custom alert. Current temperature: "
        ++ toString temperature ++ " F (Trigger: " ++ t.condition_type ++ " "
        ++ toString t.threshold_value ++ " F)")
      "custom_trigger" (some device.id) (probe.map (fun p => p.id)))
  else (db, Except.ok ())

/-- The whole per-owner body of the loop in `check_temperature_triggers`:
settings lookup (skip the owner without settings), max rule, min rule, then
every custom trigger of the settings. -/
def checkOwner (cfg : Config) (device : Device) (temperature : Rat)
    (probe : Option Probe) (db : DB) (owner : User) : DB × Except String Unit :=
  match findSetting db owner.id with
  | none => (db, Except.ok ())
  | some s =>
    match maxThresholdCheck cfg device temperature probe owner s db with
    | (db1, Except.error e) => (db1, Except.error e)
    | (db1, Except.ok _) =>
      match minThresholdCheck cfg device temperature probe owner s db1 with
      | (db2, Except.error e) => (db2, Except.error e)
      | (db2, Except.ok _) =>
        foldE (checkTrigger cfg device temperature probe owner) db2
          (settingsTriggers db2 s)

/-- `notification_service.check_temperature_triggers`: nothing for an unknown
device; a supplied but unknown probe id is kept as no probe; then run the
per-owner rules for every owner of the device. -/
def check_temperature_triggers (cfg : Config) (db : DB) (device_id : String)
    (temperature : Rat) (probe_id : Option String) (is_average : Bool) :
    DB × Except String Unit :=
  match findDevice db device_id with
  | none => (db, Except.ok ())
  | some device =>
    let probe := probe_id.bind (fun pid => findProbe db pid)
    foldE (checkOwner cfg device temperature probe) db (owners db device)

/-- `notification_service.get_user_notifications`: the user's notifications,
newest first, optionally unread only, capped at `limit`. -/
def get_user_notifications (db : DB) (user_id : Nat) (limit : Nat)
    (unread_only : Bool) : List Notification :=
  let q0 := db.notifications.filter (fun n => n.user_id == some user_id)
  let q1 := if unread_only then q0.filter (fun n => n.is_read == false) else q0
  (sortDescBy (fun n => n.created_at) q1).take limit

/-- `notification_service.mark_notification_as_read`: look up the
notification by id AND owning user; `None` (state unchanged) when absent,
else flip `is_read` on. -/
def mark_notification_as_read (db : DB) (notification_id user_id : Nat) :
    DB × Option Notification :=
  match db.notifications.find?
      (fun n => n.id == notification_id && n.user_id == some user_id) with
  | none => (db, none)
  | some n =>
    let n1 : Notification := { n with is_read := true }
    let newNotifications := replaceFirstBy
      (fun m => m.id == notification_id && m.user_id == some user_id) n1 db.notifications
    ({ db with notifications := newNotifications }, some n1)

/-- `notification_service.mark_all_notifications_as_read`: flip every unread
notification of the user and return the number of flipped rows. -/
def mark_all_notifications_as_read (db : DB) (user_id : Nat) : DB × Nat :=
  let hit := fun (n : Notification) => n.user_id == some user_id && n.is_read == false
  let cnt := (db.notifications.filter hit).length
  let newNotifications := db.notifications.map
    (fun n => if hit n then { n with is_read := true } else n)
  ({ db with notifications := newNotifications }, cnt)

/-- Per-owner body of `notify_connection_lost`: skip owners without settings
or with connection alerts off, else send the device- or probe-lost alert. -/
def notifyLostOwner (cfg : Config) (device : Device) (probe : Option Probe)
    (db : DB) (owner : User) : DB × Except String Unit :=
  match findSetting db owner.id with
  | none => (db, Except.ok ())
  | some s =>
    if !s.connection_alerts then (db, Except.ok ())
    else
      match probe with
      | some p =>
        discardR (send_notification cfg db owner.id "Probe Connection Lost"
          ("Connection to probe " ++
            (match p.name with | some n => if n.data.isEmpty then p.probe_id else n | none => p.probe_id)
            ++ " on device " ++ deviceDisplayName device ++ " has been lost.")
          "connection_lost" (some device.id) (some p.id))
      | none =>
        discardR (send_notification cfg db owner.id "Device Connection Lost"
          ("Connection to device " ++ deviceDisplayName device ++ " has been lost.")
          "connection_lost" (some device.id) none)

/-- `notification_service.notify_connection_lost`. -/
def notify_connection_lost (cfg : Config) (db : DB) (device_id : String)
    (probe_id : Option String) : DB × Except String Unit :=
  match findDevice db device_id with
  | none => (db, Except.ok ())
  | some device =>
    let probe := probe_id.bind (fun pid => findProbe db pid)
    foldE (notifyLostOwner cfg device probe) db (owners db device)

/-- One stale-device step of `check_connection_status`: notify the owners and
mark the device inactive. -/
def staleDeviceStep (cfg : Config) (now : Nat) (db : DB) (device : Device) :
    DB × Except String Unit :=
  match device.last_connected with
  | none => (db, Except.ok ())
  | some lc =>
    if now - lc > cfg.CONNECTION_TIMEOUT_SECONDS then
      match notify_connection_lost cfg db device.device_id none with
      | (db1, Except.error e) => (db1, Except.error e)
      | (db1, Except.ok _) =>
        let device1 : Device := { device with is_active := false }
        let newDevices := replaceFirstBy (fun d => d.id == device.id) device1 db1.devices
        ({ db1 with devices := newDevices }, Except.ok ())
    else (db, Except.ok ())

/-- One stale-probe step of `check_connection_status`: notify via the probe's
device when it exists, then mark the probe disconnected. -/
def staleProbeStep (cfg : Config) (now : Nat) (db : DB) (probe : Probe) :
    DB × Except String Unit :=
  match probe.last_connected with
  | none => (db, Except.ok ())
  | some lc =>
    if now - lc > cfg.CONNECTION_TIMEOUT_SECONDS then
      let afterNotify : DB × Except String Unit :=
        match db.devices.find? (fun d => d.id == probe.device_id) with
        | some device => notify_connection_lost cfg db device.device_id (some probe.probe_id)
        | none => (db, Except.ok ())
      match afterNotify with
      | (db1, Except.error e) => (db1, Except.error e)
      | (db1, Except.ok _) =>
        let probe1 : Probe := { probe with is_connected := false }
        let newProbes := replaceFirstBy (fun q => q.id == probe.id) probe1 db1.probes
        ({ db1 with probes := newProbes }, Except.ok ())
    else (db, Except.ok ())

/-- `notification_service.check_connection_status`: sweep the active devices
then the connected probes against the timeout, on snapshots taken at sweep
start. -/
def check_connection_status (cfg : Config) (db : DB) : DB × Except String Unit :=
  let activeDevices := db.devices.filter (fun d => d.is_active)
  match foldE (staleDeviceStep cfg db.now) db activeDevices with
  | (db1, Except.error e) => (db1, Except.error e)
  | (db1, Except.ok _) =>
    let connectedAll := db1.probes.filter (fun p => p.is_connected)
    foldE (staleProbeStep cfg db1.now) db1 connectedAll

/-! ### Identity store (`services/device_service.py`, `services/user_service.py`) -/

/-- `schemas.DeviceRegistrationRequest`. -/
structure DeviceRegistrationRequest where
  device_id : String
  model : String
  firmware_version : String
  name : Option String
deriving DecidableEq, Repr

/-- `schemas.DeviceRegistrationResponse`. -/
structure DeviceRegistrationResponse where
  device_id : String
  api_key : Jwt
  association_token : String
deriving DecidableEq, Repr

/-- `device_service.generate_association_token`: sha256 over the device id
and 32 random bytes, modelled with the randomness as an explicit `entropy`
input and the hash kept abstract but injective on its input string. -/
def generate_association_token (device_id : String) (entropy : String) : String :=
  "sha256:" ++ device_id ++ ":" ++ entropy

/-- The device upsert inside `device_service.register_device`: update name,
firmware, liveness and active flag of an existing row, else insert a fresh
row. -/
def upsertDeviceRow (db : DB) (device : DeviceRegistrationRequest) : DB × Device :=
  match findDevice db device.device_id with
  | some d =>
    let newName : Option String :=
      match device.name with
      | some n => if n.data.isEmpty then d.name else some n
      | none => d.name
    let d1 : Device :=
      { d with
        name := newName
        firmware_version := device.firmware_version
        last_connected := some db.now
        is_active := true }
    ({ db with devices := replaceFirstBy (fun x => x.id == d.id) d1 db.devices }, d1)
  | none =>
    let d1 : Device :=
      { id := db.nextId, device_id := device.device_id, name := device.name
        model := device.model, firmware_version := device.firmware_version
        is_active := true, last_connected := some db.now }
    ({ db with devices := db.devices ++ [d1], nextId := db.nextId + 1 }, d1)

/-- `device_service.register_device`: validate the `CCT-XXXX-XXXX` shape
(the CCT- start and exactly two hyphens, i.e. three split parts), upsert the
device row, sign a fresh API key, insert an `api_keys` row expiring 30 days
from now, and return the key with a one-time association token. -/
def register_device (cfg : Config) (db : DB) (device : DeviceRegistrationRequest)
    (entropy : String) : DB × Except String DeviceRegistrationResponse :=
  if !(List.isPrefixOf "CCT-".data device.device_id.data) ||
      (device.device_id.data.filter (fun c => c == Char.ofNat 45)).length ≠ 2 then
    (db, Except.error "Invalid device ID format. Expected format: CCT-XXXX-XXXX")
  else
    let upserted : DB × Device := upsertDeviceRow db device
    let db1 := upserted.1
    let d1 := upserted.2
    let api_key := create_device_api_key cfg device.device_id db1.now
    let keyRow : APIKeyRow :=
      { key := api_key, device_id := d1.id
        expires_at := db1.now + 30 * daySeconds, is_active := true }
    let db2 : DB := { db1 with api_keys := db1.api_keys ++ [keyRow], now := db1.now + 1 }
    (db2, Except.ok
      { device_id := d1.device_id, api_key := api_key
        association_token := generate_association_token device.device_id entropy })

/-- `schemas.ProbeRegistrationRequest`. -/
structure ProbeRegistrationRequest where
  probe_id : String
  model : String
  name : Option String
deriving DecidableEq, Repr

/-- `schemas.ProbeRegistrationResponse`. -/
structure ProbeRegistrationResponse where
  probe_id : String
  device_id : String
deriving DecidableEq, Repr

/-- `device_service.register_probe`: the device must exist; an existing probe
id is updated in place (reassigned to the device and marked connected); a new
probe is created only below the `MAX_PROBES_PER_CCT` cap on the device. -/
def register_probe (cfg : Config) (db : DB) (probe : ProbeRegistrationRequest)
    (device_id : String) : DB × Except String ProbeRegistrationResponse :=
  match findDevice db device_id with
  | none => (db, Except.error ("Device with ID " ++ device_id ++ " not found"))
  | some device =>
    match findProbe db probe.probe_id with
    | some p =>
      let newName : Option String :=
        match probe.name with
        | some n => if n.data.isEmpty then p.name else some n
        | none => p.name
      let p1 : Probe :=
        { p with
          name := newName
          device_id := device.id
          is_connected := true
          last_connected := some db.now }
      let newProbes := replaceFirstBy (fun q => q.id == p.id) p1 db.probes
      ({ db with probes := newProbes, now := db.now + 1 },
        Except.ok { probe_id := p.probe_id, device_id := device_id })
    | none =>
      let probe_count := (db.probes.filter (fun q => q.device_id == device.id)).length
      if probe_count ≥ cfg.MAX_PROBES_PER_CCT then
        (db, Except.error ("Device already has maximum number of probes ("
          ++ toString cfg.MAX_PROBES_PER_CCT ++ ")"))
      else
        let p1 : Probe :=
          { id := db.nextId, probe_id := probe.probe_id, name := probe.name
            model := probe.model, is_connected := true
            last_connected := some db.now, device_id := device.id }
        let newProbes := db.probes ++ [p1]
        ({ db with probes := newProbes, nextId := db.nextId + 1, now := db.now + 1 },
          Except.ok { probe_id := probe.probe_id, device_id := device_id })

/-- `device_service.associate_device_with_user`: `False` when the device or
user is absent, `True` (idempotently) when the pair is already associated,
else insert the association pair. -/
def associate_device_with_user (db : DB) (device_id : String) (user_id : Nat) :
    DB × Bool :=
  match findDevice db device_id with
  | none => (db, false)
  | some device =>
    match findUser db user_id with
    | none => (db, false)
    | some user =>
      if db.user_device_association.any (fun a => a.1 == user.id && a.2 == device.id) then
        (db, true)
      else
        ({ db with user_device_association :=
            db.user_device_association ++ [(user.id, device.id)] }, true)

/-- `schemas.UserCreate` (the password is kept as its hash input). -/
structure UserCreate where
  username : String
  email : String
  phone_number : Option String
  password : String
deriving DecidableEq, Repr

/-- `user_service.create_user`: reject a duplicate username or email, insert
the user, then insert their default notification settings (sms on only with
a phone number). -/
def create_user (db : DB) (user : UserCreate) : DB × Except String User :=
  match db.users.find? (fun u => u.username == user.username || u.email == some user.email) with
  | some u =>
    if u.username == user.username then
      (db, Except.error ("Username " ++ user.username ++ " already registered"))
    else
      (db, Except.error ("Email " ++ user.email ++ " already registered"))
  | none =>
    let u1 : User :=
      { id := db.nextId, username := user.username, email := some user.email
        phone_number := user.phone_number, is_active := true }
    let db1 : DB := { db with users := db.users ++ [u1], nextId := db.nextId + 1 }
    let s1 : NotificationSetting :=
      { id := db1.nextId, user_id := u1.id, email_enabled := true
        sms_enabled := user.phone_number.isSome, push_enabled := true
        max_temp_threshold := none, min_temp_threshold := none
        connection_alerts := true }
    let newSettings := db1.notification_settings ++ [s1]
    ({ db1 with notification_settings := newSettings, nextId := db1.nextId + 1 },
      Except.ok u1)

/-- `schemas.NotificationSettingUpdate`. -/
structure NotificationSettingUpdate where
  email_enabled : Option Bool
  sms_enabled : Option Bool
  push_enabled : Option Bool
  max_temp_threshold : Option Rat
  min_temp_threshold : Option Rat
  connection_alerts : Option Bool
deriving DecidableEq, Repr

/-- `user_service.update_notification_settings`: update (or lazily create)
the user's settings row, changing only the supplied fields. -/
def update_notification_settings (db : DB) (user_id : Nat)
    (u : NotificationSettingUpdate) : DB × NotificationSetting :=
  let base : DB × NotificationSetting :=
    match findSetting db user_id with
    | some s => (db, s)
    | none =>
      let s : NotificationSetting :=
        { id := db.nextId, user_id := user_id, email_enabled := true
          sms_enabled := false, push_enabled := true, max_temp_threshold := none
          min_temp_threshold := none, connection_alerts := true }
      let newSettings := db.notification_settings ++ [s]
      ({ db with notification_settings := newSettings, nextId := db.nextId + 1 }, s)
  let s0 := base.2
  let s1 : NotificationSetting :=
    { s0 with
      email_enabled := u.email_enabled.getD s0.email_enabled
      sms_enabled := u.sms_enabled.getD s0.sms_enabled
      push_enabled := u.push_enabled.getD s0.push_enabled
      max_temp_threshold := (match u.max_temp_threshold with
        | some m => some m
        | none => s0.max_temp_threshold)
      min_temp_threshold := (match u.min_temp_threshold with
        | some m => some m
        | none => s0.min_temp_threshold)
      connection_alerts := u.connection_alerts.getD s0.connection_alerts }
  ({ base.1 with notification_settings :=
      replaceFirstBy (fun s => s.id == s0.id) s1 base.1.notification_settings }, s1)

/-- `schemas.CustomTriggerCreate`. -/
structure CustomTriggerCreate where
  name : String
  condition_type : String
  threshold_value : Rat
  device_id : Option Nat
  probe_id : Option Nat
  is_active : Bool
deriving DecidableEq, Repr

/-- `user_service.create_custom_trigger`: requires existing settings, an
existing and owner-associated device when scoped, and an existing probe when
scoped. -/
def create_custom_trigger (db : DB) (user_id : Nat) (trigger : CustomTriggerCreate) :
    DB × Except String CustomTrigger :=
  match findSetting db user_id with
  | none => (db, Except.error ("Notification settings for user with ID "
      ++ toString user_id ++ " not found"))
  | some s =>
    let deviceOk : Except String Unit :=
      match trigger.device_id with
      | none => Except.ok ()
      | some did =>
        if (db.devices.find? (fun d => d.id == did)).isNone then
          Except.error ("Device with ID " ++ toString did ++ " not found")
        else if (db.user_device_association.find?
            (fun a => a.1 == user_id && a.2 == did)).isNone then
          Except.error ("User with ID " ++ toString user_id
            ++ " is not associated with device " ++ toString did)
        else Except.ok ()
    match deviceOk with
    | Except.error e => (db, Except.error e)
    | Except.ok _ =>
      let probeOk : Except String Unit :=
        match trigger.probe_id with
        | none => Except.ok ()
        | some pid =>
          if (db.probes.find? (fun p => p.id == pid)).isNone then
            Except.error ("Probe with ID " ++ toString pid ++ " not found")
          else Except.ok ()
      match probeOk with
      | Except.error e => (db, Except.error e)
      | Except.ok _ =>
        let t1 : CustomTrigger :=
          { id := db.nextId, notification_setting_id := some s.id
            name := trigger.name, condition_type := trigger.condition_type
            threshold_value := trigger.threshold_value
            device_id := trigger.device_id, probe_id := trigger.probe_id
            is_active := trigger.is_active }
        ({ db with triggers := db.triggers ++ [t1], nextId := db.nextId + 1 },
          Except.ok t1)

/-- `settings_service.sync_device_settings` state change: refresh the
device's `last_connected` (the returned sync payload is read-only). -/
def sync_device_settings (db : DB) (device_id : String) : DB × Except String Unit :=
  match findDevice db device_id with
  | none => (db, Except.error ("Device with ID " ++ device_id ++ " not found"))
  | some device =>
    let device1 : Device := { device with last_connected := some db.now }
    let newDevices := replaceFirstBy (fun d => d.id == device.id) device1 db.devices
    ({ db with devices := newDevices, now := db.now + 1 }, Except.ok ())

/-! ### Operations and reachability -/

/-- The state-mutating operations of the core, as invocable from the HTTP
layer or the external scheduler. -/
inductive Op where
  | opCreateUser (user : UserCreate)
  | opRegisterDevice (req : DeviceRegistrationRequest) (entropy : String)
  | opRegisterProbe (req : ProbeRegistrationRequest) (device_id : String)
  | opAssociate (device_id : String) (user_id : Nat)
  | opUpdateSettings (user_id : Nat) (u : NotificationSettingUpdate)
  | opCreateTrigger (user_id : Nat) (trigger : CustomTriggerCreate)
  | opStoreReading (device_id : String) (temperature : Rat)
      (probe_id : Option String) (is_average : Bool)
  | opProcessUpdate (req : TemperatureUpdateRequest)
  | opSetTarget (device_id : String) (temperature : Rat) (set_by_user_id : Option Nat)
  | opSetTargetFromDevice (device_id : String) (temperature : Rat)
  | opSetTargetFromCloud (device_id : String) (temperature : Rat) (user_id : Nat)
  | opSyncSettings (device_id : String)
  | opSendNotification (user_id : Nat) (title message ntype : String)
      (device_id probe_id : Option Nat)
  | opCheckTriggers (device_id : String) (temperature : Rat)
      (probe_id : Option String) (is_average : Bool)
  | opNotifyConnectionLost (device_id : String) (probe_id : Option String)
  | opCheckConnectionStatus
  | opMarkRead (notification_id user_id : Nat)
  | opMarkAllRead (user_id : Nat)
deriving DecidableEq, Repr

/-- Run one operation; the state reflects every commit that happened before
any raised exception, as under the Python session semantics. -/
def step (cfg : Config) (db : DB) : Op → DB
  | Op.opCreateUser user => (create_user db user).1
  | Op.opRegisterDevice req entropy => (register_device cfg db req entropy).1
  | Op.opRegisterProbe req device_id => (register_probe cfg db req device_id).1
  | Op.opAssociate device_id user_id => (associate_device_with_user db device_id user_id).1
  | Op.opUpdateSettings user_id u => (update_notification_settings db user_id u).1
  | Op.opCreateTrigger user_id trigger => (create_custom_trigger db user_id trigger).1
  | Op.opStoreReading device_id temperature probe_id is_average =>
    (store_temperature_reading db device_id temperature probe_id is_average).1
  | Op.opProcessUpdate req => (process_temperature_update db req).1
  | Op.opSetTarget device_id temperature set_by_user_id =>
    (set_target_temperature db device_id temperature set_by_user_id).1
  | Op.opSetTargetFromDevice device_id temperature =>
    (update_target_temperature_from_device db device_id temperature).1
  | Op.opSetTargetFromCloud device_id temperature user_id =>
    (update_target_temperature_from_cloud db device_id temperature user_id).1
  | Op.opSyncSettings device_id => (sync_device_settings db device_id).1
  | Op.opSendNotification user_id title message ntype device_id probe_id =>
    (send_notification cfg db user_id title message ntype device_id probe_id).1
  | Op.opCheckTriggers device_id temperature probe_id is_average =>
    (check_temperature_triggers cfg db device_id temperature probe_id is_average).1
  | Op.opNotifyConnectionLost device_id probe_id =>
    (notify_connection_lost cfg db device_id probe_id).1
  | Op.opCheckConnectionStatus => (check_connection_status cfg db).1
  | Op.opMarkRead notification_id user_id =>
    (mark_notification_as_read db notification_id user_id).1
  | Op.opMarkAllRead user_id => (mark_all_notifications_as_read db user_id).1

/-- Run a sequence of operations from a state. -/
def applyOps (cfg : Config) (db : DB) (ops : List Op) : DB :=
  ops.foldl (step cfg) db

/-- A state is reachable when some operation sequence builds it from the
empty store. -/
def Reachable (cfg : Config) (db : DB) : Prop :=
  ∃ ops : List Op, applyOps cfg DB.empty ops = db

/-! ### Concrete example states shared by the witnesses and counterexamples -/

/-- A user alice with an email address and no phone. -/
def aliceUser : User :=
  { id := 1, username := "alice", email := some "alice@example.com"
    phone_number := none, is_active := true }

/-- A registered device. -/
def exDevice : Device :=
  { id := 1, device_id := "CCT-AB12-CD34", name := none, model := "CCT-100"
    firmware_version := "1.0", is_active := true, last_connected := none }

/-- Alice's notification settings with a max threshold of 200. -/
def exSetting : NotificationSetting :=
  { id := 2, user_id := 1, email_enabled := true, sms_enabled := false
    push_enabled := true, max_temp_threshold := some 200
    min_temp_threshold := none, connection_alerts := true }

/-- A store with alice owning the device, settings present, no triggers. -/
def exDB : DB :=
  { DB.empty with
    users := [aliceUser]
    devices := [exDevice]
    user_device_association := [(1, 1)]
    notification_settings := [exSetting]
    nextId := 3
    now := 10 }

/-- A temperature update carrying one probe-less reading of 210. -/
def exUpdate210 : TemperatureUpdateRequest :=
  { device_id := "CCT-AB12-CD34", readings := [{ probe_id := none, temperature := some 210 }]
    average_temperature := none }

/-- `exDB` with one stored reading, for the history queries. -/
def histDB : DB :=
  { exDB with readings :=
      [{ id := 10, temperature := 70, timestamp := 5, device_id := 1
         probe_id := none, is_average := false }] }

/-- A probe row attached to `exDevice`. -/
def mkProbe (i : Nat) (pid : String) (connected : Bool) : Probe :=
  { id := i, probe_id := pid, name := none, model := "P-1"
    is_connected := connected, last_connected := none, device_id := 1 }

/-- `exDB` with connected probe P1 (last reading 70) and disconnected probe
P2 (last reading 80), the spec example for average temperature. -/
def avgDB : DB :=
  { exDB with
    probes := [mkProbe 5 "PRB-1" true, mkProbe 6 "PRB-2" false]
    readings :=
      [{ id := 11, temperature := 70, timestamp := 5, device_id := 1
         probe_id := some 5, is_average := false },
       { id := 12, temperature := 80, timestamp := 6, device_id := 1
         probe_id := some 6, is_average := false }] }

/-- `exDB` with four probes already registered on the device. -/
def fullDB : DB :=
  { exDB with probes := [mkProbe 5 "P1" true, mkProbe 6 "P2" true
    , mkProbe 7 "P3" true, mkProbe 8 "P4" true] }

/-- An unread notification owned by alice (user 1). -/
def exNotification : Notification :=
  { id := 20, user_id := some 1, title := "t", message := "m"
    notification_type := "temperature_alert", channel := "app", is_read := false
    device_id := none, probe_id := none, created_at := 0 }

/-- `exDB` with one unread notification of alice. -/
def notifDB : DB := { exDB with notifications := [exNotification] }

/-- A registration request for a well-formed device id. -/
def exRegistration : DeviceRegistrationRequest :=
  { device_id := "CCT-AB12-CD34", model := "CCT-100", firmware_version := "1.0"
    name := none }

/-- An active custom trigger with no device scope. -/
def noScopeTrigger : CustomTrigger :=
  { id := 7, notification_setting_id := some 2, name := "anytemp"
    condition_type := "above", threshold_value := 0, device_id := none
    probe_id := none, is_active := true }

/-- `exDB` with the unscoped trigger installed. -/
def noScopeDB : DB := { exDB with triggers := [noScopeTrigger] }

/-- The registration response computed for `exRegistration` on the empty
store with entropy string e. -/
def exRegPayload : JwtPayload :=
  { sub := some "CCT-AB12-CD34", typ := some "device", exp := 365 * daySeconds }

/-- The signed token computed for `exRegistration` on the empty store. -/
def exRegKey : Jwt :=
  { payload := exRegPayload, signedWith := "rWN2mG8GqRQV762w" }

/-- The registration response for `exRegistration` on the empty store with
entropy string e (continued from `exRegPayload`). -/
def exRegResponse : DeviceRegistrationResponse :=
  { device_id := "CCT-AB12-CD34"
    api_key := exRegKey
    association_token := "sha256:CCT-AB12-CD34:e" }

/-- An operation sequence registering a device and setting its target twice. -/
def c1Ops : List Op :=
  [Op.opRegisterDevice exRegistration "entropy",
   Op.opSetTarget "CCT-AB12-CD34" 150 none,
   Op.opSetTargetFromDevice "CCT-AB12-CD34" 160]

/-- The state `c1Ops` builds from the empty store. -/
def c1DB : DB := applyOps defaultConfig DB.empty c1Ops

/-! ### Generic list lemmas -/

theorem replaceFirstBy_length (p : α → Bool) (new : α) (l : List α) :
    (replaceFirstBy p new l).length = l.length := by
  induction l with
  | nil => rfl
  | cons x xs ih =>
    simp only [replaceFirstBy]
    split <;> simp [ih]

theorem mem_replaceFirstBy_of_mem {p : α → Bool} {x new : α} {l : List α}
    (hx : x ∈ l) (hp : p x = true) : new ∈ replaceFirstBy p new l := by
  induction l with
  | nil => cases hx
  | cons y ys ih =>
    simp only [replaceFirstBy]
    split
    · exact List.mem_cons_self _ _
    · rcases List.mem_cons.mp hx with h | h
      · subst h; simp_all
      · exact List.mem_cons_of_mem _ (ih h)

theorem mem_insertDescBy {key : α → Nat} {x a : α} {l : List α} :
    a ∈ insertDescBy key x l ↔ a = x ∨ a ∈ l := by
  induction l with
  | nil => simp [insertDescBy]
  | cons y ys ih =>
    simp only [insertDescBy]
    split
    · simp [List.mem_cons]
    · simp only [List.mem_cons, ih]
      tauto

theorem mem_sortDescBy {key : α → Nat} {a : α} {l : List α} :
    a ∈ sortDescBy key l ↔ a ∈ l := by
  induction l with
  | nil => simp [sortDescBy]
  | cons x xs ih =>
    simp only [sortDescBy, mem_insertDescBy, ih, List.mem_cons]

theorem pairwise_insertDescBy {key : α → Nat} {x : α} {l : List α}
    (h : List.Pairwise (fun a b => key b ≤ key a) l) :
    List.Pairwise (fun a b => key b ≤ key a) (insertDescBy key x l) := by
  induction l with
  | nil => simp [insertDescBy]
  | cons y ys ih =>
    rcases List.pairwise_cons.mp h with ⟨hy, hys⟩
    simp only [insertDescBy]
    split
    · rename_i hlt
      refine List.pairwise_cons.mpr ⟨?_, h⟩
      intro b hb
      rcases List.mem_cons.mp hb with rfl | hb
      · exact Nat.le_of_lt hlt
      · exact Nat.le_trans (hy b hb) (Nat.le_of_lt hlt)
    · rename_i hge
      refine List.pairwise_cons.mpr ⟨?_, ih hys⟩
      intro b hb
      rcases mem_insertDescBy.mp hb with rfl | hb
      · exact Nat.le_of_not_lt hge
      · exact hy b hb

theorem pairwise_sortDescBy (key : α → Nat) (l : List α) :
    List.Pairwise (fun a b => key b ≤ key a) (sortDescBy key l) := by
  induction l with
  | nil => simp [sortDescBy]
  | cons x xs ih => exact pairwise_insertDescBy ih

theorem foldE_preserves {β : Type} (g : DB → β) (f : DB → α → DB × Except String Unit)
    (hf : ∀ db x, g (f db x).1 = g db) (l : List α) (db : DB) :
    g (foldE f db l).1 = g db := by
  induction l generalizing db with
  | nil => rfl
  | cons x xs ih =>
    have hx := hf db x
    simp only [foldE]
    rcases hfd : f db x with ⟨db2, r⟩
    rw [hfd] at hx
    cases r with
    | ok v => simpa [hx] using ih db2
    | error e => simpa using hx

theorem foldl_preserves {β : Type} (g : DB → β) (f : DB → α → DB)
    (hf : ∀ db x, g (f db x) = g db) (l : List α) (db : DB) :
    g (l.foldl f db) = g db := by
  induction l generalizing db with
  | nil => rfl
  | cons x xs ih => simp only [List.foldl_cons]; rw [ih, hf]

theorem foldE_appends (g : DB → List β) (f : DB → α → DB × Except String Unit)
    (hf : ∀ db x, ∃ ext, g (f db x).1 = g db ++ ext) (l : List α) (db : DB) :
    ∃ ext, g (foldE f db l).1 = g db ++ ext := by
  induction l generalizing db with
  | nil => exact ⟨[], by simp [foldE]⟩
  | cons x xs ih =>
    have hx := hf db x
    simp only [foldE]
    rcases hfd : f db x with ⟨db2, r⟩
    rw [hfd] at hx
    rcases hx with ⟨ext1, hext1⟩
    cases r with
    | ok v =>
      rcases ih db2 with ⟨ext2, hext2⟩
      exact ⟨ext1 ++ ext2, by simp [hext2, hext1]⟩
    | error e => exact ⟨ext1, by simpa using hext1⟩

theorem foldl_appends (g : DB → List β) (f : DB → α → DB)
    (hf : ∀ db x, ∃ ext, g (f db x) = g db ++ ext) (l : List α) (db : DB) :
    ∃ ext, g (l.foldl f db) = g db ++ ext := by
  induction l generalizing db with
  | nil => exact ⟨[], by simp⟩
  | cons x xs ih =>
    rcases hf db x with ⟨ext1, hext1⟩
    rcases ih (f db x) with ⟨ext2, hext2⟩
    exact ⟨ext1 ++ ext2, by simp [List.foldl_cons, hext2, hext1]⟩

/-! ### C3: device API-key verification -/

/-- C3: `verify_device_api_key(db, api_key, device_id)` returns true if and
only if the token's signature is valid (signed with the configured secret),
its subject equals the claimed device id, its type tag is "device", it is
not expired, and a device with that id exists in the store; failing any one
check rejects the key. -/
theorem C3_verify_device_api_key_iff (cfg : Config) (db : DB) (api_key : Jwt)
    (device_id : String) :
    verify_device_api_key cfg db api_key device_id = true ↔
      (api_key.signedWith = cfg.SECRET_KEY ∧ api_key.payload.sub = some device_id ∧
       api_key.payload.typ = some "device" ∧ db.now ≤ api_key.payload.exp ∧
       (findDevice db device_id).isSome = true) := by
  have hver : verify_device_api_key cfg db api_key device_id =
      (if api_key.signedWith ≠ cfg.SECRET_KEY then false
       else if api_key.payload.exp < db.now then false
       else if api_key.payload.sub ≠ some device_id ∨ api_key.payload.typ ≠ some "device"
         then false
       else (findDevice db device_id).isSome) := by
    unfold verify_device_api_key jwtDecode verify_device_exists
    split_ifs <;> simp_all
  rw [hver]
  split_ifs with h1 h2 h3
  · simp only [Bool.false_eq_true, false_iff]
    rintro ⟨ha, -⟩
    exact h1 ha
  · simp only [Bool.false_eq_true, false_iff]
    rintro ⟨-, -, -, hd, -⟩
    omega
  · simp only [Bool.false_eq_true, false_iff]
    rintro ⟨-, hb, hc, -, -⟩
    rcases h3 with h | h
    · exact h hb
    · exact h hc
  · push_neg at h1 h3
    constructor
    · intro h
      exact ⟨h1, h3.1, h3.2, by omega, h⟩
    · rintro ⟨-, -, -, -, he⟩
      exact he

/-! ### C4: API-key expiry at registration -/

theorem upsertDeviceRow_now (db : DB) (req : DeviceRegistrationRequest) :
    (upsertDeviceRow db req).1.now = db.now := by
  unfold upsertDeviceRow
  split <;> rfl

/-- C4 counterexample: registering a device on the empty store inserts an
`api_keys` row expiring 30 days out, but the signed token it returns (and
stores in that row) carries a 365-day expiry, so the signed token issued at
registration does not expire 30 days after creation. -/
theorem C4_counterexample :
    ((register_device defaultConfig DB.empty exRegistration "e").1.api_keys.map
        (fun k => k.expires_at) = [30 * daySeconds]) ∧
    ((register_device defaultConfig DB.empty exRegistration "e").1.api_keys.map
        (fun k => k.key.payload.exp) = [365 * daySeconds]) ∧
    365 * daySeconds ≠ 30 * daySeconds := by
  refine ⟨rfl, rfl, by decide⟩

/-- C4 (amended): `register_device` issues an APIKey whose stored row carries
a 30-day expiry from creation time, while the signed token itself (returned
to the device and stored in the row) carries a 365-day expiry from creation
time. -/
theorem C4_api_key_expiry (cfg : Config) (db : DB) (req : DeviceRegistrationRequest)
    (entropy : String) (resp : DeviceRegistrationResponse)
    (h : (register_device cfg db req entropy).2 = Except.ok resp) :
    resp.api_key.payload.exp = db.now + 365 * daySeconds ∧
    ∃ row ∈ (register_device cfg db req entropy).1.api_keys,
      row.key = resp.api_key ∧ row.expires_at = db.now + 30 * daySeconds := by
  unfold register_device at h ⊢
  split_ifs at h ⊢ with hcond
  simp only [Except.ok.injEq] at h
  subst h
  simp only [create_device_api_key, create_access_token, jwtEncode,
    upsertDeviceRow_now]
  refine ⟨trivial, _, List.mem_append_right _ (List.mem_singleton_self _), ?_, ?_⟩ <;> rfl

/-- C4 witness: the amended theorem applied at the concrete registration. -/
theorem C4_api_key_expiry_witness :
    (register_device defaultConfig DB.empty exRegistration "e").2 = Except.ok exRegResponse ∧
    (exRegResponse.api_key.payload.exp = DB.empty.now + 365 * daySeconds ∧
     ∃ row ∈ (register_device defaultConfig DB.empty exRegistration "e").1.api_keys,
       row.key = exRegResponse.api_key ∧ row.expires_at = DB.empty.now + 30 * daySeconds) :=
  ⟨rfl, C4_api_key_expiry defaultConfig DB.empty exRegistration "e" exRegResponse rfl⟩

/-! ### C7: the two equality semantics for custom triggers -/

/-- C7: for `condition_type = "equal"` the threshold-engine path
(`check_temperature_triggers`) fires iff the temperature is within 0.5 of the
threshold, while the direct-ingestion path (`store_temperature_reading`)
fires iff the temperature equals the threshold exactly; at temperature 100
and threshold 100.3 the two paths disagree. -/
theorem C7_equal_semantics :
    (∀ t v : Rat, trigger_condition_check "equal" t v = true ↔ |t - v| < 1 / 2) ∧
    (∀ t v : Rat, trigger_condition_store "equal" t v = true ↔ t = v) ∧
    trigger_condition_check "equal" 100 (1003 / 10) = true ∧
    trigger_condition_store "equal" 100 (1003 / 10) = false := by
  have hc : ∀ t v : Rat, trigger_condition_check "equal" t v = decide (|t - v| < 1 / 2) :=
    fun t v => rfl
  have hs : ∀ t v : Rat, trigger_condition_store "equal" t v = decide (t = v) :=
    fun t v => rfl
  refine ⟨fun t v => by simp [hc], fun t v => by simp [hs], ?_, ?_⟩
  · rw [hc]
    simp only [decide_eq_true_eq, abs_sub_lt_iff]
    constructor <;> norm_num
  · rw [hs]
    simp only [decide_eq_false_iff_not]
    norm_num

/-! ### C5: temperature-history filters -/

/-- C5 counterexample: on a known device with one stored reading, querying
the history with an unknown probe_id returns the unfiltered device history
(one reading), not the empty list the claim requires. -/
theorem C5_counterexample :
    (findDevice histDB "CCT-AB12-CD34").isSome = true ∧
    findProbe histDB "PRB-NOPE" = none ∧
    (get_temperature_history histDB "CCT-AB12-CD34" (some "PRB-NOPE") 100 none).length = 1 := by
  refine ⟨by decide, by decide, by decide⟩

/-- C5 (amended): `get_temperature_history` returns the device's readings
newest-first, capped at `limit`, filtered to the given probe when the
supplied probe_id resolves and to the given `is_average` kind when supplied;
an unknown device yields the empty list, but a known device with an unknown
probe_id silently drops the probe filter and yields the unfiltered (by
probe) device history. -/
theorem C5_get_temperature_history (db : DB) (device_id : String)
    (probe_id : Option String) (limit : Nat) (is_average : Option Bool) :
    (findDevice db device_id = none →
      get_temperature_history db device_id probe_id limit is_average = []) ∧
    (get_temperature_history db device_id probe_id limit is_average).length ≤ limit ∧
    List.Pairwise (fun a b => b.timestamp ≤ a.timestamp)
      (get_temperature_history db device_id probe_id limit is_average) ∧
    (∀ dev, findDevice db device_id = some dev →
      ∀ r ∈ get_temperature_history db device_id probe_id limit is_average,
        r ∈ db.readings ∧ r.device_id = dev.id ∧
        (∀ b, is_average = some b → r.is_average = b) ∧
        (∀ pid probe, probe_id = some pid → findProbe db pid = some probe →
          r.probe_id = some probe.id)) ∧
    (∀ pid, probe_id = some pid → findProbe db pid = none →
      get_temperature_history db device_id probe_id limit is_average =
        get_temperature_history db device_id none limit is_average) := by
  rcases hd : findDevice db device_id with _ | dev
  · refine ⟨fun _ => by simp [get_temperature_history, hd], ?_, ?_, ?_, ?_⟩
    · simp [get_temperature_history, hd]
    · simp [get_temperature_history, hd]
    · intro dev hdev
      cases hdev
    · intro pid hpid hprobe
      simp [get_temperature_history, hd]
  · refine ⟨fun h => Option.noConfusion h, ?_, ?_, ?_, ?_⟩
    · simp only [get_temperature_history, hd]
      exact List.length_take_le _ _
    · simp only [get_temperature_history, hd]
      exact List.Pairwise.sublist (List.take_sublist _ _)
        (pairwise_sortDescBy (fun r : TemperatureReading => r.timestamp) _)
    · intro dev2 hdev2 r hr
      cases hdev2
      rcases hpo : probe_id with _ | pid
      · rcases his : is_average with _ | b
        · simp only [get_temperature_history, hd, hpo, his] at hr
          have hr2 := mem_sortDescBy.mp ((List.take_sublist _ _).subset hr)
          have hbase := List.mem_filter.mp hr2
          refine ⟨hbase.1, ?_, ?_, ?_⟩
          · simpa using hbase.2
          · intro b hb
            cases hb
          · intro pid probe hp hf
            cases hp
        · simp only [get_temperature_history, hd, hpo, his] at hr
          have hr2 := mem_sortDescBy.mp ((List.take_sublist _ _).subset hr)
          have havg := List.mem_filter.mp hr2
          have hbase := List.mem_filter.mp havg.1
          refine ⟨hbase.1, ?_, ?_, ?_⟩
          · simpa using hbase.2
          · intro b2 hb2
            cases hb2
            simpa using havg.2
          · intro pid probe hp hf
            cases hp
      · rcases hfp : findProbe db pid with _ | probe
        · rcases his : is_average with _ | b
          · simp only [get_temperature_history, hd, hpo, hfp, his] at hr
            have hr2 := mem_sortDescBy.mp ((List.take_sublist _ _).subset hr)
            have hbase := List.mem_filter.mp hr2
            refine ⟨hbase.1, ?_, ?_, ?_⟩
            · simpa using hbase.2
            · intro b hb
              cases hb
            · intro pid2 probe hp hf
              cases hp
              rw [hfp] at hf
              cases hf
          · simp only [get_temperature_history, hd, hpo, hfp, his] at hr
            have hr2 := mem_sortDescBy.mp ((List.take_sublist _ _).subset hr)
            have havg := List.mem_filter.mp hr2
            have hbase := List.mem_filter.mp havg.1
            refine ⟨hbase.1, ?_, ?_, ?_⟩
            · simpa using hbase.2
            · intro b2 hb2
              cases hb2
              simpa using havg.2
            · intro pid2 probe hp hf
              cases hp
              rw [hfp] at hf
              cases hf
        · rcases his : is_average with _ | b
          · simp only [get_temperature_history, hd, hpo, hfp, his] at hr
            have hr2 := mem_sortDescBy.mp ((List.take_sublist _ _).subset hr)
            have hprb := List.mem_filter.mp hr2
            have hbase := List.mem_filter.mp hprb.1
            refine ⟨hbase.1, ?_, ?_, ?_⟩
            · simpa using hbase.2
            · intro b hb
              cases hb
            · intro pid2 probe2 hp hf
              cases hp
              rw [hfp] at hf
              cases hf
              simpa using hprb.2
          · simp only [get_temperature_history, hd, hpo, hfp, his] at hr
            have hr2 := mem_sortDescBy.mp ((List.take_sublist _ _).subset hr)
            have havg := List.mem_filter.mp hr2
            have hprb := List.mem_filter.mp havg.1
            have hbase := List.mem_filter.mp hprb.1
            refine ⟨hbase.1, ?_, ?_, ?_⟩
            · simpa using hbase.2
            · intro b2 hb2
              cases hb2
              simpa using havg.2
            · intro pid2 probe2 hp hf
              cases hp
              rw [hfp] at hf
              cases hf
              simpa using hprb.2
    · intro pid hpid hprobe
      subst hpid
      simp only [get_temperature_history, hd, hprobe]

/-! ### C6: probe-average temperature -/

theorem deviceTemps_of_empty {db : DB} {dev : Device}
    (h : (connectedProbes db dev).isEmpty = true) : deviceTemps db dev = [] := by
  unfold deviceTemps
  rw [List.isEmpty_iff.mp h]
  rfl

/-- C6: `calculate_average_temperature` is `None` when the device is unknown;
for a known device it is `None` exactly when no currently-connected probe has
a non-average reading, and otherwise it is the arithmetic mean of the latest
non-average reading of each connected probe (disconnected probes excluded,
as `deviceTemps` ranges over `connectedProbes` only). -/
theorem C6_calculate_average_temperature (db : DB) (device_id : String) :
    (findDevice db device_id = none → calculate_average_temperature db device_id = none) ∧
    (∀ dev, findDevice db device_id = some dev →
      (calculate_average_temperature db device_id = none ↔ deviceTemps db dev = []) ∧
      (deviceTemps db dev ≠ [] →
        calculate_average_temperature db device_id =
          some ((deviceTemps db dev).sum / ((deviceTemps db dev).length : Rat)))) := by
  constructor
  · intro h
    simp [calculate_average_temperature, h]
  · intro dev hdev
    constructor
    · simp only [calculate_average_temperature, hdev]
      split_ifs with h1 h2
      · simp [deviceTemps_of_empty h1]
      · simp [List.isEmpty_iff.mp h2]
      · constructor
        · intro hc
          cases hc
        · intro hc
          exact absurd (by simp [hc] : (deviceTemps db dev).isEmpty = true) h2
    · intro hne
      simp only [calculate_average_temperature, hdev]
      split_ifs with h1 h2
      · exact absurd (deviceTemps_of_empty h1) hne
      · exact absurd (List.isEmpty_iff.mp h2) hne
      · rfl

/-- C5 witness: the amended theorem applied at the concrete store with an
unknown probe id. -/
theorem C5_get_temperature_history_witness :
    (get_temperature_history histDB "CCT-AB12-CD34" (some "PRB-NOPE") 100 none =
      get_temperature_history histDB "CCT-AB12-CD34" none 100 none) ∧
    (get_temperature_history histDB "CCT-AB12-CD34" (some "PRB-NOPE") 100 none).length ≤ 100 :=
  ⟨(C5_get_temperature_history histDB "CCT-AB12-CD34" (some "PRB-NOPE") 100 none).2.2.2.2
      "PRB-NOPE" rfl (by decide),
   (C5_get_temperature_history histDB "CCT-AB12-CD34" (some "PRB-NOPE") 100 none).2.1⟩

/-- C6 witness: on the device with connected probe P1 (last reading 70) and
disconnected probe P2 (last reading 80), the theorem yields 70, not 75. -/
theorem C6_calculate_average_temperature_witness :
    deviceTemps avgDB exDevice = [70] ∧
    calculate_average_temperature avgDB "CCT-AB12-CD34" = some 70 := by
  have h := (C6_calculate_average_temperature avgDB "CCT-AB12-CD34").2 exDevice (by decide)
  have ht : deviceTemps avgDB exDevice = [70] := by decide
  refine ⟨ht, ?_⟩
  have h2 := h.2 (by decide)
  rw [h2, ht]
  norm_num

/-! ### C9: notification read-state -/

theorem filter_not_user_map_flip (uid : Nat) (l : List Notification) :
    (l.map (fun n => if n.user_id == some uid && n.is_read == false
        then { n with is_read := true } else n)).filter
      (fun n => !(n.user_id == some uid)) =
    l.filter (fun n => !(n.user_id == some uid)) := by
  induction l with
  | nil => rfl
  | cons x xs ih =>
    simp only [List.map_cons, List.filter_cons]
    have hfid : ((if (x.user_id == some uid && x.is_read == false) = true
        then { x with is_read := true } else x) : Notification).user_id = x.user_id := by
      split <;> rfl
    by_cases hu : (x.user_id == some uid) = true
    · rw [hfid]
      simp only [hu, Bool.not_true, Bool.false_eq_true, if_false]
      exact ih
    · have hu2 : (x.user_id == some uid) = false := Bool.not_eq_true _ |>.mp hu
      have hflip : (if (x.user_id == some uid && x.is_read == false) = true
          then ({ x with is_read := true } : Notification) else x) = x := by
        rw [if_neg]
        simp [hu2]
      rw [hflip, ih]

/-- C9: `mark_as_read` flips `is_read` only for the owning user: when no
notification with the given id belongs to the user, the call returns
not-found with the store unchanged; `mark_all_as_read` flips exactly the
user's unread rows (others untouched, no row added or removed) and returns
the count of rows it flipped. -/
theorem C9_notification_read_state (db : DB) (notification_id user_id : Nat) :
    ((∀ n ∈ db.notifications, n.id = notification_id → n.user_id ≠ some user_id) →
      mark_notification_as_read db notification_id user_id = (db, none)) ∧
    (mark_all_notifications_as_read db user_id).2 =
      (db.notifications.filter
        (fun n => n.user_id == some user_id && n.is_read == false)).length ∧
    (∀ n ∈ (mark_all_notifications_as_read db user_id).1.notifications,
      n.user_id = some user_id → n.is_read = true) ∧
    (mark_all_notifications_as_read db user_id).1.notifications.length =
      db.notifications.length ∧
    (mark_all_notifications_as_read db user_id).1.notifications.filter
        (fun n => !(n.user_id == some user_id)) =
      db.notifications.filter (fun n => !(n.user_id == some user_id)) := by
  refine ⟨?_, rfl, ?_, ?_, ?_⟩
  · intro h
    have hfind : db.notifications.find?
        (fun n => n.id == notification_id && n.user_id == some user_id) = none := by
      rw [List.find?_eq_none]
      intro n hn
      simp only [Bool.and_eq_true, beq_iff_eq, not_and]
      intro h1 h2
      exact h n hn h1 (by simpa using h2)
    unfold mark_notification_as_read
    rw [hfind]
  · intro n hn hu
    simp only [mark_all_notifications_as_read] at hn
    rcases List.mem_map.mp hn with ⟨m, hm, rfl⟩
    by_cases hh : (m.user_id == some user_id && m.is_read == false) = true
    · rw [if_pos hh]
    · rw [if_neg hh] at hu ⊢
      have : ¬((m.user_id == some user_id) = true ∧ (m.is_read == false) = true) := by
        simpa [Bool.and_eq_true] using hh
      by_cases hr : m.is_read = true
      · exact hr
      · have hrf : m.is_read = false := Bool.not_eq_true _ |>.mp hr
        exact absurd ⟨by simpa using hu, by simp [hrf]⟩ this
  · simp [mark_all_notifications_as_read]
  · exact filter_not_user_map_flip user_id db.notifications

/-- C9 witness: user 2 cannot mark alice's notification (id 20) read, and
marking all of alice's notifications flips exactly one row. -/
theorem C9_notification_read_state_witness :
    mark_notification_as_read notifDB 20 2 = (notifDB, none) ∧
    (mark_all_notifications_as_read notifDB 1).2 = 1 := by
  refine ⟨(C9_notification_read_state notifDB 20 2).1 (by decide), ?_⟩
  rw [(C9_notification_read_state notifDB 20 1).2.1]
  decide

/-! ### C8: probe registration -/

/-- C8: `register_probe` fails with a device-not-found error when the device
is unknown; creating a new probe on a device already holding
`MAX_PROBES_PER_CCT` (4 by default) probes fails with the capacity error and
persists nothing; re-registering an existing probe_id updates the row in
place (reassigning device ownership and marking it connected) without
creating a second probe row. -/
theorem C8_register_probe (cfg : Config) (db : DB) (req : ProbeRegistrationRequest)
    (device_id : String) :
    defaultConfig.MAX_PROBES_PER_CCT = 4 ∧
    (findDevice db device_id = none →
      register_probe cfg db req device_id =
        (db, Except.error ("Device with ID " ++ device_id ++ " not found"))) ∧
    (∀ dev, findDevice db device_id = some dev →
      findProbe db req.probe_id = none →
      (db.probes.filter (fun q => q.device_id == dev.id)).length ≥ cfg.MAX_PROBES_PER_CCT →
      (register_probe cfg db req device_id).1.probes = db.probes ∧
      (register_probe cfg db req device_id).2 =
        Except.error ("Device already has maximum number of probes ("
          ++ toString cfg.MAX_PROBES_PER_CCT ++ ")")) ∧
    (∀ dev p, findDevice db device_id = some dev →
      findProbe db req.probe_id = some p →
      (register_probe cfg db req device_id).1.probes.length = db.probes.length ∧
      (register_probe cfg db req device_id).2 =
        Except.ok { probe_id := p.probe_id, device_id := device_id } ∧
      ∃ p1 ∈ (register_probe cfg db req device_id).1.probes,
        p1.id = p.id ∧ p1.device_id = dev.id ∧ p1.is_connected = true) := by
  refine ⟨rfl, ?_, ?_, ?_⟩
  · intro h
    simp [register_probe, h]
  · intro dev hdev hprobe hge
    simp only [register_probe, hdev, hprobe]
    rw [if_pos hge]
    exact ⟨rfl, rfl⟩
  · intro dev p hdev hprobe
    simp only [register_probe, hdev, hprobe]
    refine ⟨replaceFirstBy_length _ _ _, trivial, ?_⟩
    refine ⟨_, mem_replaceFirstBy_of_mem (List.mem_of_find?_eq_some hprobe) (by simp), ?_, ?_, ?_⟩
    · rfl
    · rfl
    · rfl

/-- C8 witness: on a device already holding four probes the fifth probe
registration errors and the probe table is unchanged. -/
theorem C8_register_probe_witness :
    (register_probe defaultConfig fullDB
        { probe_id := "P5", model := "P-1", name := none } "CCT-AB12-CD34").1.probes
      = fullDB.probes ∧
    (register_probe defaultConfig fullDB
        { probe_id := "P5", model := "P-1", name := none } "CCT-AB12-CD34").2 =
      Except.error ("Device already has maximum number of probes ("
        ++ toString defaultConfig.MAX_PROBES_PER_CCT ++ ")") :=
  (C8_register_probe defaultConfig fullDB
      { probe_id := "P5", model := "P-1", name := none } "CCT-AB12-CD34").2.2.1
    exDevice (by decide) (by decide) (by decide)

/-! ### C10: the direct custom-trigger path -/

theorem storeTrigger_settings (device : Device) (probe : Option Probe)
    (temperature : Rat) (db : DB) (t : CustomTrigger) :
    (storeTrigger device probe temperature db t).notification_settings =
      db.notification_settings := by
  unfold storeTrigger addNotification
  dsimp only
  split_ifs <;> rfl

theorem storeTrigger_triggers (device : Device) (probe : Option Probe)
    (temperature : Rat) (db : DB) (t : CustomTrigger) :
    (storeTrigger device probe temperature db t).triggers = db.triggers := by
  unfold storeTrigger addNotification
  dsimp only
  split_ifs <;> rfl

theorem storeTrigger_targets (device : Device) (probe : Option Probe)
    (temperature : Rat) (db : DB) (t : CustomTrigger) :
    (storeTrigger device probe temperature db t).targets = db.targets := by
  unfold storeTrigger addNotification
  dsimp only
  split_ifs <;> rfl

theorem triggerOwner_congr {db1 db2 : DB}
    (h : db1.notification_settings = db2.notification_settings) (t : CustomTrigger) :
    triggerOwner db1 t = triggerOwner db2 t := by
  unfold triggerOwner
  rw [h]

theorem storeTrigger_spec (device : Device) (probe : Option Probe)
    (temperature : Rat) (db : DB) (t : CustomTrigger) :
    ∃ ext, (storeTrigger device probe temperature db t).notifications =
        db.notifications ++ ext ∧
      ∀ n ∈ ext, n.notification_type = "temperature_alert" ∧ n.channel = "app" ∧
        n.user_id = triggerOwner db t := by
  unfold storeTrigger addNotification
  dsimp only
  split_ifs
  · exact ⟨[], by simp, by simp⟩
  · refine ⟨[_], rfl, ?_⟩
    intro n hn
    rcases List.mem_singleton.mp hn with rfl
    exact ⟨rfl, rfl, rfl⟩
  · exact ⟨[], by simp, by simp⟩

theorem storeTriggers_fold (device : Device) (probe : Option Probe) (temperature : Rat)
    (ts : List CustomTrigger) (db : DB) :
    (ts.foldl (storeTrigger device probe temperature) db).notification_settings =
      db.notification_settings ∧
    ∃ ext, (ts.foldl (storeTrigger device probe temperature) db).notifications =
        db.notifications ++ ext ∧
      ∀ n ∈ ext, n.notification_type = "temperature_alert" ∧ n.channel = "app" ∧
        ∃ t ∈ ts, n.user_id = triggerOwner db t := by
  induction ts generalizing db with
  | nil => exact ⟨rfl, [], by simp, by simp⟩
  | cons t ts ih =>
    simp only [List.foldl_cons]
    obtain ⟨ext1, he1, hp1⟩ := storeTrigger_spec device probe temperature db t
    obtain ⟨hs2, ext2, he2, hp2⟩ := ih (storeTrigger device probe temperature db t)
    refine ⟨by rw [hs2, storeTrigger_settings], ext1 ++ ext2, ?_, ?_⟩
    · rw [he2, he1, List.append_assoc]
    · intro n hn
      rcases List.mem_append.mp hn with h | h
      · obtain ⟨h1, h2, h3⟩ := hp1 n h
        exact ⟨h1, h2, t, List.mem_cons_self _ _, h3⟩
      · obtain ⟨h1, h2, t2, ht2, h3⟩ := hp2 n h
        refine ⟨h1, h2, t2, List.mem_cons_of_mem _ ht2, ?_⟩
        rw [h3]
        exact triggerOwner_congr (storeTrigger_settings device probe temperature db t) t2

theorem storeCore_notifications (db : DB) (device : Device) (probe : Option Probe)
    (temperature : Rat) (is_average : Bool) :
    ∃ ext, ((storeCore db device probe temperature is_average).1).notifications =
        db.notifications ++ ext ∧
      ∀ n ∈ ext, n.notification_type = "temperature_alert" ∧ n.channel = "app" ∧
        ∃ t ∈ relevantStoreTriggers db device, n.user_id = triggerOwner db t := by
  unfold storeCore
  rcases probe with _ | p
  all_goals
    obtain ⟨hset, ext, hext, hprop⟩ := storeTriggers_fold device _ temperature _ _
  all_goals exact ⟨ext, hext, hprop⟩

theorem store_notifications_spec (db : DB) (device_id : String) (temperature : Rat)
    (probe_id : Option String) (is_average : Bool) (dev : Device)
    (hdev : findDevice db device_id = some dev) :
    ∃ ext, ((store_temperature_reading db device_id temperature probe_id
        is_average).1).notifications = db.notifications ++ ext ∧
      ∀ n ∈ ext, n.notification_type = "temperature_alert" ∧ n.channel = "app" ∧
        ∃ t ∈ relevantStoreTriggers db dev, n.user_id = triggerOwner db t := by
  unfold store_temperature_reading
  rw [hdev]
  dsimp only
  rcases probe_id with _ | pid
  · exact storeCore_notifications db dev none temperature is_average
  · dsimp only
    rcases hp : findProbe db pid with _ | p <;> dsimp only
    · exact ⟨[], by simp, by simp⟩
    · exact storeCore_notifications db dev (some p) temperature is_average

/-- C10: in the direct trigger path of `store_temperature_reading` only
active triggers whose device scope equals the stored reading's device are
queried (`relevantStoreTriggers`), so a trigger with no device scope is never
queried and, when no active trigger is scoped to the device, no notification
is created; every notification this path creates has type
`temperature_alert` and channel `app`, attributed to the trigger's
notification-setting owner — `None` when the trigger has no setting. -/
theorem C10_store_direct_trigger_path (db : DB) (device_id : String)
    (temperature : Rat) (probe_id : Option String) (is_average : Bool) :
    (∀ dev t, t.device_id = none → t ∉ relevantStoreTriggers db dev) ∧
    (∀ dev, findDevice db device_id = some dev →
      (∀ t ∈ db.triggers, t.is_active = true → t.device_id ≠ some dev.id) →
      ((store_temperature_reading db device_id temperature probe_id
          is_average).1).notifications = db.notifications) ∧
    (∀ dev, findDevice db device_id = some dev →
      ∀ n ∈ ((store_temperature_reading db device_id temperature probe_id
          is_average).1).notifications,
        n ∈ db.notifications ∨
        (n.notification_type = "temperature_alert" ∧ n.channel = "app" ∧
          ∃ t ∈ db.triggers, t.is_active = true ∧ t.device_id = some dev.id ∧
            n.user_id = triggerOwner db t)) ∧
    (∀ t : CustomTrigger, t.notification_setting_id = none →
      triggerOwner db t = none) := by
  refine ⟨?_, ?_, ?_, ?_⟩
  · intro dev t ht
    unfold relevantStoreTriggers
    intro hmem
    have := (List.mem_filter.mp hmem).2
    rw [ht] at this
    simp at this
  · intro dev hdev hno
    have hrel : relevantStoreTriggers db dev = [] := by
      unfold relevantStoreTriggers
      rw [List.filter_eq_nil_iff]
      intro t ht
      simp only [Bool.and_eq_true, beq_iff_eq, not_and]
      intro h1 h2
      exact absurd h1 (hno t ht h2)
    obtain ⟨ext, hext, hprop⟩ :=
      store_notifications_spec db device_id temperature probe_id is_average dev hdev
    have hextnil : ext = [] := by
      rw [List.eq_nil_iff_forall_not_mem]
      intro n hn
      obtain ⟨-, -, t, htmem, -⟩ := hprop n hn
      rw [hrel] at htmem
      cases htmem
    rw [hext, hextnil, List.append_nil]
  · intro dev hdev n hn
    obtain ⟨ext, hext, hprop⟩ :=
      store_notifications_spec db device_id temperature probe_id is_average dev hdev
    rw [hext] at hn
    rcases List.mem_append.mp hn with h | h
    · exact Or.inl h
    · obtain ⟨h1, h2, t, htmem, h3⟩ := hprop n h
      have hf := List.mem_filter.mp htmem
      have hcond := hf.2
      simp only [Bool.and_eq_true, beq_iff_eq] at hcond
      exact Or.inr ⟨h1, h2, t, hf.1, hcond.2, hcond.1, h3⟩
  · intro t ht
    unfold triggerOwner
    rw [ht]
    rfl

/-- C10 witness: with an active unscoped trigger installed, a stored reading
of 500 creates no notification; with the same trigger scoped to the device,
the created notification carries type `temperature_alert`, channel `app` and
alice's user id from the trigger's notification setting. -/
theorem C10_store_direct_trigger_path_witness :
    ((store_temperature_reading noScopeDB "CCT-AB12-CD34" 500 none
        false).1).notifications = noScopeDB.notifications ∧
    noScopeTrigger ∉ relevantStoreTriggers noScopeDB exDevice := by
  have h := C10_store_direct_trigger_path noScopeDB "CCT-AB12-CD34" 500 none false
  exact ⟨h.2.1 exDevice (by decide) (by decide), h.1 exDevice noScopeTrigger rfl⟩

/-! ### Engine lemmas: send_notification -/

theorem getOrCreateSettings_proj {β : Type} (g : DB → β)
    (hSet : ∀ (db : DB) (l : List NotificationSetting) (nid : Nat),
      g { db with notification_settings := l, nextId := nid } = g db)
    (db : DB) (uid : Nat) : g ((getOrCreateSettings db uid).1) = g db := by
  unfold getOrCreateSettings
  split
  · rfl
  · exact hSet _ _ _

theorem getOrCreateSettings_of_found {db : DB} {uid : Nat} {s : NotificationSetting}
    (h : findSetting db uid = some s) : getOrCreateSettings db uid = (db, s) := by
  unfold getOrCreateSettings
  rw [h]

theorem send_notification_proj {β : Type} (g : DB → β)
    (hAdd : ∀ (db : DB) u t2 m2 ty2 c d p, g (addNotification db u t2 m2 ty2 c d p) = g db)
    (hSet : ∀ (db : DB) (l : List NotificationSetting) (nid : Nat),
      g { db with notification_settings := l, nextId := nid } = g db)
    (cfg : Config) (db : DB) (uid : Nat) (t m ty : String) (did pid : Option Nat) :
    g ((send_notification cfg db uid t m ty did pid).1) = g db := by
  unfold send_notification
  split
  · rfl
  · dsimp only
    split_ifs <;>
      (try simp only [hAdd]) <;>
      exact getOrCreateSettings_proj g hSet db uid

theorem send_notification_users (cfg : Config) (db : DB) (uid : Nat)
    (t m ty : String) (did pid : Option Nat) :
    ((send_notification cfg db uid t m ty did pid).1).users = db.users :=
  send_notification_proj (fun d => d.users) (fun _ _ _ _ _ _ _ _ => rfl)
    (fun _ _ _ => rfl) cfg db uid t m ty did pid

theorem send_notification_targets (cfg : Config) (db : DB) (uid : Nat)
    (t m ty : String) (did pid : Option Nat) :
    ((send_notification cfg db uid t m ty did pid).1).targets = db.targets :=
  send_notification_proj (fun d => d.targets) (fun _ _ _ _ _ _ _ _ => rfl)
    (fun _ _ _ => rfl) cfg db uid t m ty did pid

theorem send_notification_triggers (cfg : Config) (db : DB) (uid : Nat)
    (t m ty : String) (did pid : Option Nat) :
    ((send_notification cfg db uid t m ty did pid).1).triggers = db.triggers :=
  send_notification_proj (fun d => d.triggers) (fun _ _ _ _ _ _ _ _ => rfl)
    (fun _ _ _ => rfl) cfg db uid t m ty did pid

theorem send_notification_settings {db : DB} {uid : Nat} {s : NotificationSetting}
    (cfg : Config) (t m ty : String) (did pid : Option Nat)
    (h : findSetting db uid = some s) :
    ((send_notification cfg db uid t m ty did pid).1).notification_settings =
      db.notification_settings := by
  unfold send_notification
  split
  · rfl
  · dsimp only
    rw [getOrCreateSettings_of_found h]
    split_ifs <;> rfl

theorem send_notification_ok {db : DB} {uid : Nat} (cfg : Config)
    (t m ty : String) (did pid : Option Nat)
    (h : (findUser db uid).isSome = true) :
    ∃ r, (send_notification cfg db uid t m ty did pid).2 = Except.ok r := by
  unfold send_notification
  rcases hu : findUser db uid with _ | user
  · rw [hu] at h
    cases h
  · dsimp only
    exact ⟨_, rfl⟩

theorem notifAppend_trans {dbA dbB dbC : DB} {P : Notification → Prop}
    (h1 : ∃ ext, dbB.notifications = dbA.notifications ++ ext ∧ ∀ n ∈ ext, P n)
    (h2 : ∃ ext, dbC.notifications = dbB.notifications ++ ext ∧ ∀ n ∈ ext, P n) :
    ∃ ext, dbC.notifications = dbA.notifications ++ ext ∧ ∀ n ∈ ext, P n := by
  obtain ⟨e1, h1e, h1p⟩ := h1
  obtain ⟨e2, h2e, h2p⟩ := h2
  refine ⟨e1 ++ e2, by rw [h2e, h1e, List.append_assoc], ?_⟩
  intro n hn
  rcases List.mem_append.mp hn with h | h
  · exact h1p n h
  · exact h2p n h

theorem notifAppend_of_eq {dbA dbB : DB} {P : Notification → Prop}
    (h : dbB.notifications = dbA.notifications) :
    ∃ ext, dbB.notifications = dbA.notifications ++ ext ∧ ∀ n ∈ ext, P n :=
  ⟨[], by simp [h], by simp⟩

theorem notifAppend_addNotification (db : DB) (u : Option Nat) (t m ty c : String)
    (d p : Option Nat) {P : Notification → Prop}
    (hP : ∀ idv now, P
      { id := idv, user_id := u, title := t, message := m
        notification_type := ty, channel := c, is_read := false, device_id := d
        probe_id := p, created_at := now }) :
    ∃ ext, (addNotification db u t m ty c d p).notifications = db.notifications ++ ext ∧
      ∀ n ∈ ext, P n := by
  refine ⟨[_], rfl, ?_⟩
  intro n hn
  rcases List.mem_singleton.mp hn with rfl
  exact hP _ _

theorem notifAppend_conditional_add (db : DB) (u : Option Nat) (t m ty ch : String)
    (d p : Option Nat) (c : Bool) {P : Notification → Prop}
    (hP : ∀ idv now, P
      { id := idv, user_id := u, title := t, message := m
        notification_type := ty, channel := ch, is_read := false, device_id := d
        probe_id := p, created_at := now }) :
    ∃ ext, (if c = true then addNotification db u t m ty ch d p else db).notifications =
        db.notifications ++ ext ∧ ∀ n ∈ ext, P n := by
  split_ifs
  · exact notifAppend_addNotification db u t m ty ch d p hP
  · exact notifAppend_of_eq rfl

theorem send_notification_append (cfg : Config) (db : DB) (uid : Nat)
    (t m ty : String) (did pid : Option Nat) :
    ∃ ext, ((send_notification cfg db uid t m ty did pid).1).notifications =
        db.notifications ++ ext ∧
      ∀ n ∈ ext, n.user_id = some uid ∧ n.notification_type = ty := by
  unfold send_notification
  split
  · exact notifAppend_of_eq rfl
  · dsimp only
    refine notifAppend_trans (notifAppend_of_eq ?_)
      (notifAppend_trans (notifAppend_conditional_add _ _ _ _ _ _ _ _ _ ?_)
        (notifAppend_trans (notifAppend_conditional_add _ _ _ _ _ _ _ _ _ ?_)
          (notifAppend_conditional_add _ _ _ _ _ _ _ _ _ ?_)))
    · exact getOrCreateSettings_proj (fun d => d.notifications) (fun _ _ _ => rfl) db uid
    all_goals exact fun idv now => ⟨rfl, rfl⟩

theorem filter_length_le_of_append {p : Notification → Bool} {a : List Notification}
    (b : List Notification) :
    (a.filter p).length ≤ ((a ++ b).filter p).length := by
  rw [List.filter_append, List.length_append]
  omega

theorem filter_length_mono {dbA dbB : DB} (p : Notification → Bool)
    (h : ∃ ext, dbB.notifications = dbA.notifications ++ ext) :
    (dbA.notifications.filter p).length ≤ (dbB.notifications.filter p).length := by
  obtain ⟨ext, he⟩ := h
  rw [he]
  exact filter_length_le_of_append ext

theorem send_notification_push_creates (cfg : Config) (db : DB) (uid : Nat)
    (t m ty : String) (did pid : Option Nat) (s : NotificationSetting)
    (hu : (findUser db uid).isSome = true) (hs : findSetting db uid = some s)
    (hpush : s.push_enabled = true) (hcfg : cfg.PUSH_ENABLED = true)
    (p : Notification → Bool)
    (hp : ∀ n, n.user_id = some uid → n.notification_type = ty → p n = true) :
    (((send_notification cfg db uid t m ty did pid).1).notifications.filter p).length >
      (db.notifications.filter p).length := by
  unfold send_notification
  rcases hufind : findUser db uid with _ | user
  · rw [hufind] at hu
    cases hu
  · dsimp only
    rw [getOrCreateSettings_of_found hs]
    dsimp only
    rw [hpush]
    have hsend : push_channel_send cfg user = true := by
      unfold push_channel_send
      exact hcfg
    rw [hsend]
    have hmono2 : ∃ ext,
        ((if ((if s.email_enabled = true then some (email_channel_send cfg user)
            else none) == some true) = true
          then addNotification db (some uid) t m ty "email" did pid else db)).notifications =
        db.notifications ++ ext := by
      obtain ⟨e, he, -⟩ := notifAppend_conditional_add db (some uid) t m ty "email" did pid
        _ (P := fun _ => True) (fun _ _ => trivial)
      exact ⟨e, he⟩
    obtain ⟨e1, he1⟩ := hmono2
    set db1 := (if ((if s.email_enabled = true then some (email_channel_send cfg user)
        else none) == some true) = true
      then addNotification db (some uid) t m ty "email" did pid else db) with hdb1
    obtain ⟨e2, he2, -⟩ := notifAppend_conditional_add db1 (some uid) t m ty "sms" did pid
      ((if s.sms_enabled = true then some (sms_channel_send cfg user) else none) == some true)
      (P := fun _ => True) (fun _ _ => trivial)
    set db2 := (if ((if s.sms_enabled = true then some (sms_channel_send cfg user)
        else none) == some true) = true
      then addNotification db1 (some uid) t m ty "sms" did pid else db1) with hdb2
    have hfin : ((addNotification db2 (some uid) t m ty "push" did pid).notifications.filter
        p).length = (db2.notifications.filter p).length + 1 := by
      unfold addNotification
      dsimp only
      rw [List.filter_append, List.length_append]
      have hrow := hp
        { id := db2.nextId, user_id := some uid, title := t, message := m
          notification_type := ty, channel := "push", is_read := false, device_id := did
          probe_id := pid, created_at := db2.now } rfl rfl
      simp [hrow]
    have hle : (db.notifications.filter p).length ≤ (db2.notifications.filter p).length := by
      calc (db.notifications.filter p).length
          ≤ (db1.notifications.filter p).length := by rw [he1]; exact filter_length_le_of_append e1
        _ ≤ (db2.notifications.filter p).length := by rw [he2]; exact filter_length_le_of_append e2
    have hcond : ((if true = true then (some true : Option Bool) else none)
        == some true) = true := by decide
    rw [if_pos hcond, hfin]
    omega

theorem findSetting_congr {db1 db2 : DB} (uid : Nat)
    (h : db1.notification_settings = db2.notification_settings) :
    findSetting db1 uid = findSetting db2 uid := by
  unfold findSetting
  rw [h]

theorem findUser_congr {db1 db2 : DB} (uid : Nat) (h : db1.users = db2.users) :
    findUser db1 uid = findUser db2 uid := by
  unfold findUser
  rw [h]

theorem maxThresholdCheck_settings (cfg : Config) (device : Device) (temperature : Rat)
    (probe : Option Probe) (owner : User) (s : NotificationSetting) (db : DB)
    (h : (findSetting db owner.id).isSome = true) :
    ((maxThresholdCheck cfg device temperature probe owner s db).1).notification_settings =
      db.notification_settings := by
  obtain ⟨s2, hs2⟩ := Option.isSome_iff_exists.mp h
  unfold maxThresholdCheck discardR
  split
  · split_ifs
    · exact send_notification_settings cfg _ _ _ _ _ hs2
    · rfl
  · rfl

theorem maxThresholdCheck_users (cfg : Config) (device : Device) (temperature : Rat)
    (probe : Option Probe) (owner : User) (s : NotificationSetting) (db : DB) :
    ((maxThresholdCheck cfg device temperature probe owner s db).1).users = db.users := by
  unfold maxThresholdCheck discardR
  split
  · split_ifs
    · exact send_notification_users cfg db owner.id _ _ _ _ _
    · rfl
  · rfl

theorem maxThresholdCheck_targets (cfg : Config) (device : Device) (temperature : Rat)
    (probe : Option Probe) (owner : User) (s : NotificationSetting) (db : DB) :
    ((maxThresholdCheck cfg device temperature probe owner s db).1).targets = db.targets := by
  unfold maxThresholdCheck discardR
  split
  · split_ifs
    · exact send_notification_targets cfg db owner.id _ _ _ _ _
    · rfl
  · rfl

theorem maxThresholdCheck_ok (cfg : Config) (device : Device) (temperature : Rat)
    (probe : Option Probe) (owner : User) (s : NotificationSetting) (db : DB)
    (h : (findUser db owner.id).isSome = true) :
    (maxThresholdCheck cfg device temperature probe owner s db).2 = Except.ok () := by
  unfold maxThresholdCheck discardR
  split
  · split_ifs
    · obtain ⟨r, hr⟩ := send_notification_ok cfg _ _ _ _ _ h
      rw [hr]
      rfl
    · rfl
  · rfl

theorem maxThresholdCheck_append (cfg : Config) (device : Device) (temperature : Rat)
    (probe : Option Probe) (owner : User) (s : NotificationSetting) (db : DB) :
    ∃ ext, ((maxThresholdCheck cfg device temperature probe owner s db).1).notifications =
        db.notifications ++ ext ∧
      ∀ n ∈ ext, n.user_id = some owner.id ∧ n.notification_type = "temperature_alert" ∧
        ∃ mth, s.max_temp_threshold = some mth ∧ temperature > mth := by
  unfold maxThresholdCheck discardR
  rcases hm : s.max_temp_threshold with _ | mth
  · exact notifAppend_of_eq rfl
  · dsimp only
    split_ifs with ht
    · obtain ⟨ext, he, hp⟩ := send_notification_append cfg db owner.id
        "High Temperature Alert" _ "temperature_alert" _ _
      refine ⟨ext, he, ?_⟩
      intro n hn
      obtain ⟨h1, h2⟩ := hp n hn
      exact ⟨h1, h2, mth, rfl, ht⟩
    · exact notifAppend_of_eq rfl

theorem minThresholdCheck_settings (cfg : Config) (device : Device) (temperature : Rat)
    (probe : Option Probe) (owner : User) (s : NotificationSetting) (db : DB)
    (h : (findSetting db owner.id).isSome = true) :
    ((minThresholdCheck cfg device temperature probe owner s db).1).notification_settings =
      db.notification_settings := by
  obtain ⟨s2, hs2⟩ := Option.isSome_iff_exists.mp h
  unfold minThresholdCheck discardR
  split
  · split_ifs
    · exact send_notification_settings cfg _ _ _ _ _ hs2
    · rfl
  · rfl

theorem minThresholdCheck_users (cfg : Config) (device : Device) (temperature : Rat)
    (probe : Option Probe) (owner : User) (s : NotificationSetting) (db : DB) :
    ((minThresholdCheck cfg device temperature probe owner s db).1).users = db.users := by
  unfold minThresholdCheck discardR
  split
  · split_ifs
    · exact send_notification_users cfg db owner.id _ _ _ _ _
    · rfl
  · rfl

theorem minThresholdCheck_targets (cfg : Config) (device : Device) (temperature : Rat)
    (probe : Option Probe) (owner : User) (s : NotificationSetting) (db : DB) :
    ((minThresholdCheck cfg device temperature probe owner s db).1).targets = db.targets := by
  unfold minThresholdCheck discardR
  split
  · split_ifs
    · exact send_notification_targets cfg db owner.id _ _ _ _ _
    · rfl
  · rfl

theorem minThresholdCheck_ok (cfg : Config) (device : Device) (temperature : Rat)
    (probe : Option Probe) (owner : User) (s : NotificationSetting) (db : DB)
    (h : (findUser db owner.id).isSome = true) :
    (minThresholdCheck cfg device temperature probe owner s db).2 = Except.ok () := by
  unfold minThresholdCheck discardR
  split
  · split_ifs
    · obtain ⟨r, hr⟩ := send_notification_ok cfg _ _ _ _ _ h
      rw [hr]
      rfl
    · rfl
  · rfl

theorem minThresholdCheck_append (cfg : Config) (device : Device) (temperature : Rat)
    (probe : Option Probe) (owner : User) (s : NotificationSetting) (db : DB) :
    ∃ ext, ((minThresholdCheck cfg device temperature probe owner s db).1).notifications =
        db.notifications ++ ext ∧
      ∀ n ∈ ext, n.user_id = some owner.id ∧ n.notification_type = "temperature_alert" ∧
        ∃ mth, s.min_temp_threshold = some mth ∧ temperature < mth := by
  unfold minThresholdCheck discardR
  rcases hm : s.min_temp_threshold with _ | mth
  · exact notifAppend_of_eq rfl
  · dsimp only
    split_ifs with ht
    · obtain ⟨ext, he, hp⟩ := send_notification_append cfg db owner.id
        "Low Temperature Alert" _ "temperature_alert" _ _
      refine ⟨ext, he, ?_⟩
      intro n hn
      obtain ⟨h1, h2⟩ := hp n hn
      exact ⟨h1, h2, mth, rfl, ht⟩
    · exact notifAppend_of_eq rfl

theorem checkTrigger_settings (cfg : Config) (device : Device) (temperature : Rat)
    (probe : Option Probe) (owner : User) (db : DB) (t : CustomTrigger)
    (h : (findSetting db owner.id).isSome = true) :
    ((checkTrigger cfg device temperature probe owner db t).1).notification_settings =
      db.notification_settings := by
  obtain ⟨s2, hs2⟩ := Option.isSome_iff_exists.mp h
  unfold checkTrigger discardR
  split_ifs <;> first
    | rfl
    | exact send_notification_settings cfg _ _ _ _ _ hs2

theorem checkTrigger_users (cfg : Config) (device : Device) (temperature : Rat)
    (probe : Option Probe) (owner : User) (db : DB) (t : CustomTrigger) :
    ((checkTrigger cfg device temperature probe owner db t).1).users = db.users := by
  unfold checkTrigger discardR
  split_ifs <;> first
    | rfl
    | exact send_notification_users cfg db owner.id _ _ _ _ _

theorem checkTrigger_targets (cfg : Config) (device : Device) (temperature : Rat)
    (probe : Option Probe) (owner : User) (db : DB) (t : CustomTrigger) :
    ((checkTrigger cfg device temperature probe owner db t).1).targets = db.targets := by
  unfold checkTrigger discardR
  split_ifs <;> first
    | rfl
    | exact send_notification_targets cfg db owner.id _ _ _ _ _

theorem checkTrigger_ok (cfg : Config) (device : Device) (temperature : Rat)
    (probe : Option Probe) (owner : User) (db : DB) (t : CustomTrigger)
    (h : (findUser db owner.id).isSome = true) :
    (checkTrigger cfg device temperature probe owner db t).2 = Except.ok () := by
  obtain ⟨r, hr⟩ := @send_notification_ok db owner.id cfg
    ("Custom Temperature Alert: " ++ t.name) _ "custom_trigger" (some device.id)
    (probe.map (fun p => p.id)) h
  unfold checkTrigger discardR
  split_ifs <;> first
    | rfl
    | (rw [hr]; rfl)

theorem checkTrigger_append (cfg : Config) (device : Device) (temperature : Rat)
    (probe : Option Probe) (owner : User) (db : DB) (t : CustomTrigger) :
    ∃ ext, ((checkTrigger cfg device temperature probe owner db t).1).notifications =
        db.notifications ++ ext ∧
      ∀ n ∈ ext, n.user_id = some owner.id ∧ n.notification_type = "custom_trigger" := by
  unfold checkTrigger discardR
  split_ifs <;> first
    | exact notifAppend_of_eq rfl
    | exact send_notification_append cfg db owner.id _ _ "custom_trigger" _ _

theorem foldE_inv_append {α : Type} (Inv : DB → Prop) (Q : Notification → Prop)
    (f : DB → α → DB × Except String Unit) (l : List α)
    (hf : ∀ db x, x ∈ l → Inv db → Inv (f db x).1 ∧
      ∃ ext, ((f db x).1).notifications = db.notifications ++ ext ∧ ∀ n ∈ ext, Q n) :
    ∀ db : DB, Inv db → Inv (foldE f db l).1 ∧
      ∃ ext, ((foldE f db l).1).notifications = db.notifications ++ ext ∧
        ∀ n ∈ ext, Q n := by
  induction l with
  | nil => exact fun db h => ⟨h, notifAppend_of_eq rfl⟩
  | cons x xs ih =>
    intro db hInv
    obtain ⟨hInv2, happ⟩ := hf db x (List.mem_cons_self _ _) hInv
    simp only [foldE]
    rcases hfx : f db x with ⟨db2, r⟩
    rw [hfx] at hInv2 happ
    cases r with
    | ok v =>
      obtain ⟨hInv3, happ3⟩ :=
        ih (fun db3 y hy h3 => hf db3 y (List.mem_cons_of_mem _ hy) h3) db2 hInv2
      exact ⟨hInv3, notifAppend_trans happ happ3⟩
    | error e => exact ⟨hInv2, happ⟩

theorem foldE_all_ok {α : Type} (Inv : DB → Prop)
    (f : DB → α → DB × Except String Unit) (l : List α)
    (hpres : ∀ db x, x ∈ l → Inv db → Inv (f db x).1)
    (hok : ∀ db x, x ∈ l → Inv db → (f db x).2 = Except.ok ()) :
    ∀ db : DB, Inv db → (foldE f db l).2 = Except.ok () := by
  induction l with
  | nil => exact fun db _ => rfl
  | cons x xs ih =>
    intro db hInv
    have h1 := hpres db x (List.mem_cons_self _ _) hInv
    have h2 := hok db x (List.mem_cons_self _ _) hInv
    simp only [foldE]
    rcases hfx : f db x with ⟨db2, r⟩
    rw [hfx] at h1 h2
    cases r with
    | ok v =>
      exact ih (fun db3 y hy h3 => hpres db3 y (List.mem_cons_of_mem _ hy) h3)
        (fun db3 y hy h3 => hok db3 y (List.mem_cons_of_mem _ hy) h3) db2 h1
    | error e => cases h2

theorem foldE_filter_mono {α : Type} (f : DB → α → DB × Except String Unit)
    (p : Notification → Bool) (l : List α)
    (happend : ∀ db x, x ∈ l → ∃ ext, ((f db x).1).notifications = db.notifications ++ ext) :
    ∀ db : DB, (db.notifications.filter p).length ≤
      (((foldE f db l).1).notifications.filter p).length := by
  induction l with
  | nil => exact fun db => Nat.le_refl _
  | cons x xs ih =>
    intro db
    obtain ⟨ext, he⟩ := happend db x (List.mem_cons_self _ _)
    simp only [foldE]
    rcases hfx : f db x with ⟨db2, r⟩
    rw [hfx] at he
    have hstep : (db.notifications.filter p).length ≤
        (db2.notifications.filter p).length := by
      rw [he]
      exact filter_length_le_of_append ext
    cases r with
    | ok v =>
      exact Nat.le_trans hstep
        (ih (fun db3 y hy => happend db3 y (List.mem_cons_of_mem _ hy)) db2)
    | error e => exact hstep

theorem foldE_fires {α : Type} (Inv : DB → Prop)
    (f : DB → α → DB × Except String Unit) (p : Notification → Bool) (x : α)
    (l : List α)
    (hpres : ∀ db y, y ∈ l → Inv db → Inv (f db y).1)
    (happend : ∀ db y, y ∈ l → ∃ ext, ((f db y).1).notifications = db.notifications ++ ext)
    (hok : ∀ db y, y ∈ l → Inv db → (f db y).2 = Except.ok ())
    (hx : ∀ db, Inv db → (((f db x).1).notifications.filter p).length >
      (db.notifications.filter p).length) :
    ∀ db : DB, Inv db → x ∈ l →
      (((foldE f db l).1).notifications.filter p).length >
        (db.notifications.filter p).length := by
  induction l with
  | nil =>
    intro db _ hmem
    cases hmem
  | cons y ys ih =>
    intro db hInv hmem
    simp only [foldE]
    rcases hfy : f db y with ⟨db2, r⟩
    rcases List.mem_cons.mp hmem with rfl | hmem2
    · have hfire := hx db hInv
      rw [hfy] at hfire
      cases r with
      | ok v =>
        have hmono := foldE_filter_mono f p ys
          (fun db3 z hz => happend db3 z (List.mem_cons_of_mem _ hz)) db2
        exact Nat.lt_of_lt_of_le hfire hmono
      | error e => exact hfire
    · have hok2 := hok db y (List.mem_cons_self _ _) hInv
      rw [hfy] at hok2
      cases r with
      | ok v =>
        have hInv2 := hpres db y (List.mem_cons_self _ _) hInv
        rw [hfy] at hInv2
        have hstep : (db.notifications.filter p).length ≤
            (db2.notifications.filter p).length := by
          obtain ⟨ext, he⟩ := happend db y (List.mem_cons_self _ _)
          rw [hfy] at he
          rw [he]
          exact filter_length_le_of_append ext
        exact Nat.lt_of_le_of_lt hstep
          (ih (fun db3 z hz h3 => hpres db3 z (List.mem_cons_of_mem _ hz) h3)
            (fun db3 z hz => happend db3 z (List.mem_cons_of_mem _ hz))
            (fun db3 z hz h3 => hok db3 z (List.mem_cons_of_mem _ hz) h3)
            db2 hInv2 hmem2)
      | error e => cases hok2

theorem foldE_filter_pres {α : Type} (Inv : DB → Prop)
    (f : DB → α → DB × Except String Unit) (p : Notification → Bool) (l : List α)
    (hpres : ∀ db y, y ∈ l → Inv db → Inv (f db y).1)
    (hstep : ∀ db y, y ∈ l → Inv db →
      ∃ ext, ((f db y).1).notifications = db.notifications ++ ext ∧
        ∀ n ∈ ext, p n = false) :
    ∀ db : DB, Inv db →
      ((foldE f db l).1).notifications.filter p = db.notifications.filter p := by
  induction l with
  | nil => exact fun db _ => rfl
  | cons y ys ih =>
    intro db hInv
    simp only [foldE]
    rcases hfy : f db y with ⟨db2, r⟩
    obtain ⟨ext, he, hfalse⟩ := hstep db y (List.mem_cons_self _ _) hInv
    rw [hfy] at he
    have hInv2 := hpres db y (List.mem_cons_self _ _) hInv
    rw [hfy] at hInv2
    have heq : db2.notifications.filter p = db.notifications.filter p := by
      rw [he, List.filter_append]
      have : ext.filter p = [] := by
        rw [List.filter_eq_nil_iff]
        intro a ha
        simp [hfalse a ha]
      rw [this, List.append_nil]
    cases r with
    | ok v =>
      rw [ih (fun db3 z hz h3 => hpres db3 z (List.mem_cons_of_mem _ hz) h3)
        (fun db3 z hz h3 => hstep db3 z (List.mem_cons_of_mem _ hz) h3) db2 hInv2]
      exact heq
    | error e => exact heq

theorem checkOwner_spec (cfg : Config) (device : Device) (temperature : Rat)
    (probe : Option Probe) (db : DB) (owner : User) :
    ((checkOwner cfg device temperature probe db owner).1).notification_settings =
      db.notification_settings ∧
    ((checkOwner cfg device temperature probe db owner).1).users = db.users ∧
    ∃ ext, ((checkOwner cfg device temperature probe db owner).1).notifications =
        db.notifications ++ ext ∧
      ∀ n ∈ ext, n.user_id = some owner.id ∧
        (n.notification_type = "custom_trigger" ∨
          (n.notification_type = "temperature_alert" ∧
            ∃ s, findSetting db owner.id = some s ∧
              ((∃ mth, s.max_temp_threshold = some mth ∧ temperature > mth) ∨
               (∃ mth, s.min_temp_threshold = some mth ∧ temperature < mth)))) := by
  unfold checkOwner
  rcases hset : findSetting db owner.id with _ | s
  · exact ⟨rfl, rfl, notifAppend_of_eq rfl⟩
  · dsimp only
    have hsome : (findSetting db owner.id).isSome = true := by
      rw [hset]
      rfl
    rcases hr1 : maxThresholdCheck cfg device temperature probe owner s db with ⟨db1, r1⟩
    have hs1 : db1.notification_settings = db.notification_settings := by
      have h := maxThresholdCheck_settings cfg device temperature probe owner s db hsome
      rw [hr1] at h
      exact h
    have hu1 : db1.users = db.users := by
      have h := maxThresholdCheck_users cfg device temperature probe owner s db
      rw [hr1] at h
      exact h
    have ha1 : ∃ ext, db1.notifications = db.notifications ++ ext ∧
        ∀ n ∈ ext, n.user_id = some owner.id ∧
          (n.notification_type = "custom_trigger" ∨
            (n.notification_type = "temperature_alert" ∧
              ∃ s2, (some s : Option NotificationSetting) = some s2 ∧
                ((∃ mth, s2.max_temp_threshold = some mth ∧ temperature > mth) ∨
                 (∃ mth, s2.min_temp_threshold = some mth ∧ temperature < mth)))) := by
      obtain ⟨ext, he, hp⟩ := maxThresholdCheck_append cfg device temperature probe owner s db
      rw [hr1] at he
      refine ⟨ext, he, ?_⟩
      intro n hn
      obtain ⟨h1, h2, mth, h3, h4⟩ := hp n hn
      exact ⟨h1, Or.inr ⟨h2, s, rfl, Or.inl ⟨mth, h3, h4⟩⟩⟩
    cases r1 with
    | error e => exact ⟨hs1, hu1, ha1⟩
    | ok v =>
      dsimp only
      have hsome1 : (findSetting db1 owner.id).isSome = true := by
        rw [findSetting_congr owner.id hs1, hset]
        rfl
      rcases hr2 : minThresholdCheck cfg device temperature probe owner s db1 with ⟨db2, r2⟩
      have hs2 : db2.notification_settings = db.notification_settings := by
        have h := minThresholdCheck_settings cfg device temperature probe owner s db1 hsome1
        rw [hr2] at h
        rw [h, hs1]
      have hu2 : db2.users = db.users := by
        have h := minThresholdCheck_users cfg device temperature probe owner s db1
        rw [hr2] at h
        rw [h, hu1]
      have ha2 : ∃ ext, db2.notifications = db.notifications ++ ext ∧
          ∀ n ∈ ext, n.user_id = some owner.id ∧
            (n.notification_type = "custom_trigger" ∨
              (n.notification_type = "temperature_alert" ∧
                ∃ s2, (some s : Option NotificationSetting) = some s2 ∧
                  ((∃ mth, s2.max_temp_threshold = some mth ∧ temperature > mth) ∨
                   (∃ mth, s2.min_temp_threshold = some mth ∧ temperature < mth)))) := by
        refine notifAppend_trans ha1 ?_
        obtain ⟨ext, he, hp⟩ := minThresholdCheck_append cfg device temperature probe owner s db1
        rw [hr2] at he
        refine ⟨ext, he, ?_⟩
        intro n hn
        obtain ⟨h1, h2, mth, h3, h4⟩ := hp n hn
        exact ⟨h1, Or.inr ⟨h2, s, rfl, Or.inr ⟨mth, h3, h4⟩⟩⟩
      cases r2 with
      | error e => exact ⟨hs2, hu2, ha2⟩
      | ok v2 =>
        dsimp only
        have hfold := foldE_inv_append
          (fun d => d.notification_settings = db.notification_settings ∧ d.users = db.users)
          (fun n => n.user_id = some owner.id ∧
            (n.notification_type = "custom_trigger" ∨
              (n.notification_type = "temperature_alert" ∧
                ∃ s2, (some s : Option NotificationSetting) = some s2 ∧
                  ((∃ mth, s2.max_temp_threshold = some mth ∧ temperature > mth) ∨
                   (∃ mth, s2.min_temp_threshold = some mth ∧ temperature < mth)))))
          (checkTrigger cfg device temperature probe owner)
          (settingsTriggers db2 s)
          (fun db3 t _ h3 => by
            have hsome3 : (findSetting db3 owner.id).isSome = true := by
              rw [findSetting_congr owner.id h3.1, hset]
              rfl
            refine ⟨⟨?_, ?_⟩, ?_⟩
            · rw [checkTrigger_settings cfg device temperature probe owner db3 t hsome3]
              exact h3.1
            · rw [checkTrigger_users cfg device temperature probe owner db3 t]
              exact h3.2
            · obtain ⟨ext, he, hp⟩ :=
                checkTrigger_append cfg device temperature probe owner db3 t
              refine ⟨ext, he, ?_⟩
              intro n hn
              obtain ⟨h1, h2⟩ := hp n hn
              exact ⟨h1, Or.inl h2⟩)
          db2 ⟨hs2, hu2⟩
        obtain ⟨⟨hsf, huf⟩, hext⟩ := hfold
        exact ⟨hsf, huf, notifAppend_trans ha2 hext⟩

theorem checkOwner_targets (cfg : Config) (device : Device) (temperature : Rat)
    (probe : Option Probe) (db : DB) (owner : User) :
    ((checkOwner cfg device temperature probe db owner).1).targets = db.targets := by
  unfold checkOwner
  rcases hset : findSetting db owner.id with _ | s
  · rfl
  · dsimp only
    rcases hr1 : maxThresholdCheck cfg device temperature probe owner s db with ⟨db1, r1⟩
    have ht1 : db1.targets = db.targets := by
      have h := maxThresholdCheck_targets cfg device temperature probe owner s db
      rw [hr1] at h
      exact h
    cases r1 with
    | error e => exact ht1
    | ok v =>
      dsimp only
      rcases hr2 : minThresholdCheck cfg device temperature probe owner s db1 with ⟨db2, r2⟩
      have ht2 : db2.targets = db.targets := by
        have h := minThresholdCheck_targets cfg device temperature probe owner s db1
        rw [hr2] at h
        rw [h, ht1]
      cases r2 with
      | error e => exact ht2
      | ok v2 =>
        dsimp only
        rw [foldE_preserves (fun d => d.targets)
          (checkTrigger cfg device temperature probe owner)
          (fun db3 t => checkTrigger_targets cfg device temperature probe owner db3 t)
          (settingsTriggers db2 s) db2]
        exact ht2

theorem checkOwner_ok (cfg : Config) (device : Device) (temperature : Rat)
    (probe : Option Probe) (db : DB) (owner : User)
    (hu : (findUser db owner.id).isSome = true) :
    (checkOwner cfg device temperature probe db owner).2 = Except.ok () := by
  unfold checkOwner
  rcases hset : findSetting db owner.id with _ | s
  · rfl
  · dsimp only
    rcases hr1 : maxThresholdCheck cfg device temperature probe owner s db with ⟨db1, r1⟩
    have hok1 := maxThresholdCheck_ok cfg device temperature probe owner s db hu
    rw [hr1] at hok1
    have hu1 : (findUser db1 owner.id).isSome = true := by
      have h := maxThresholdCheck_users cfg device temperature probe owner s db
      rw [hr1] at h
      rw [findUser_congr owner.id h]
      exact hu
    cases r1 with
    | error e => cases hok1
    | ok v =>
      dsimp only
      rcases hr2 : minThresholdCheck cfg device temperature probe owner s db1 with ⟨db2, r2⟩
      have hok2 := minThresholdCheck_ok cfg device temperature probe owner s db1 hu1
      rw [hr2] at hok2
      have hu2 : (findUser db2 owner.id).isSome = true := by
        have h := minThresholdCheck_users cfg device temperature probe owner s db1
        rw [hr2] at h
        rw [findUser_congr owner.id h]
        exact hu1
      cases r2 with
      | error e => cases hok2
      | ok v2 =>
        dsimp only
        exact foldE_all_ok (fun d => (findUser d owner.id).isSome = true)
          (checkTrigger cfg device temperature probe owner)
          (settingsTriggers db2 s)
          (fun db3 t _ h3 => by
            have h := checkTrigger_users cfg device temperature probe owner db3 t
            show (findUser (checkTrigger cfg device temperature probe owner
              db3 t).1 owner.id).isSome = true
            rw [findUser_congr owner.id h]
            exact h3)
          (fun db3 t _ h3 => checkTrigger_ok cfg device temperature probe owner db3 t h3)
          db2 hu2

theorem checkOwner_fires (cfg : Config) (device : Device) (temperature : Rat)
    (probe : Option Probe) (db : DB) (owner : User) (s : NotificationSetting) (m : Rat)
    (hset : findSetting db owner.id = some s) (hm : s.max_temp_threshold = some m)
    (ht : temperature > m) (hpush : s.push_enabled = true)
    (hcfg : cfg.PUSH_ENABLED = true) (hu : (findUser db owner.id).isSome = true)
    (p : Notification → Bool)
    (hp : ∀ n, n.user_id = some owner.id → n.notification_type = "temperature_alert" →
      p n = true) :
    (((checkOwner cfg device temperature probe db owner).1).notifications.filter p).length >
      (db.notifications.filter p).length := by
  unfold checkOwner
  rw [hset]
  dsimp only
  unfold maxThresholdCheck
  rw [hm]
  dsimp only
  rw [if_pos ht]
  set msg := "Temperature for " ++ deviceDisplayName device ++ probeNameSuffix probe
    ++ " has exceeded the maximum threshold. Current temperature: "
    ++ toString temperature ++ " F (Threshold: " ++ toString m ++ " F)" with hmsg
  obtain ⟨r, hr⟩ := @send_notification_ok db owner.id cfg
    "High Temperature Alert" msg "temperature_alert" (some device.id)
    (probe.map (fun q => q.id)) hu
  unfold discardR
  rw [hr]
  dsimp only [Except.map]
  have hfire := send_notification_push_creates cfg db owner.id
    "High Temperature Alert" msg "temperature_alert" (some device.id)
    (probe.map (fun q => q.id)) s hu hset hpush hcfg p hp
  rcases hr2 : minThresholdCheck cfg device temperature probe owner s
      ((send_notification cfg db owner.id "High Temperature Alert" msg
        "temperature_alert" (some device.id) (probe.map (fun q => q.id))).1) with ⟨db2, r2⟩
  rw [hr2]
  have hmono2 : ((send_notification cfg db owner.id "High Temperature Alert" msg
      "temperature_alert" (some device.id)
      (probe.map (fun q => q.id))).1.notifications.filter p).length ≤
      (db2.notifications.filter p).length := by
    obtain ⟨ext, he, -⟩ := minThresholdCheck_append cfg device temperature probe owner s _
    rw [hr2] at he
    rw [he]
    exact filter_length_le_of_append ext
  cases r2 with
  | error e => exact Nat.lt_of_lt_of_le hfire hmono2
  | ok v2 =>
    dsimp only
    have hmono3 := foldE_filter_mono
      (checkTrigger cfg device temperature probe owner) p (settingsTriggers db2 s)
      (fun db3 t _ => by
        obtain ⟨ext, he, -⟩ := checkTrigger_append cfg device temperature probe owner db3 t
        exact ⟨ext, he⟩)
      db2
    exact Nat.lt_of_lt_of_le (Nat.lt_of_lt_of_le hfire hmono2) hmono3

/-! ### C2: global-threshold evaluation and the temperature-update flow -/

theorem mem_users_of_mem_owners {db : DB} {device : Device} {u : User}
    (hu : u ∈ owners db device) : u ∈ db.users :=
  List.mem_of_mem_filter hu

theorem findUser_isSome_of_mem {db : DB} {u : User} (hu : u ∈ db.users) :
    (findUser db u.id).isSome = true := by
  unfold findUser
  simp only [List.find?_isSome]
  exact ⟨u, hu, by simp⟩

theorem storeCore_no_triggers (db : DB) (device : Device) (probe : Option Probe)
    (temperature : Rat) (is_average : Bool) (h : db.triggers = []) :
    (storeCore db device probe temperature is_average).1.triggers = [] ∧
    (storeCore db device probe temperature is_average).1.notifications =
      db.notifications := by
  unfold storeCore relevantStoreTriggers
  rcases probe with _ | p <;> simp [h]

theorem store_no_triggers (db : DB) (device_id : String) (temperature : Rat)
    (probe_id : Option String) (is_average : Bool) (h : db.triggers = []) :
    (store_temperature_reading db device_id temperature probe_id
      is_average).1.triggers = [] ∧
    (store_temperature_reading db device_id temperature probe_id
      is_average).1.notifications = db.notifications := by
  unfold store_temperature_reading
  rcases findDevice db device_id with _ | device
  · exact ⟨h, rfl⟩
  · dsimp only
    rcases probe_id with _ | pid
    · exact storeCore_no_triggers db device none temperature is_average h
    · dsimp only
      rcases findProbe db pid with _ | probe
      · exact ⟨h, rfl⟩
      · exact storeCore_no_triggers db device (some probe) temperature is_average h

theorem processEntry_no_triggers (device_id : String) (db : DB)
    (r : ProbeReadingEntry) (h : db.triggers = []) :
    (processEntry device_id db r).1.triggers = [] ∧
    (processEntry device_id db r).1.notifications = db.notifications := by
  unfold processEntry
  rcases r with ⟨rpid, rtemp⟩
  rcases rtemp with _ | t
  · exact ⟨h, rfl⟩
  · exact store_no_triggers db device_id t rpid false h

theorem process_update_no_notifications (db : DB) (update : TemperatureUpdateRequest)
    (h : db.triggers = []) :
    (process_temperature_update db update).1.notifications = db.notifications := by
  unfold process_temperature_update
  obtain ⟨hinv1, ext, hnot1, hfalse⟩ := foldE_inv_append (fun d => d.triggers = [])
    (fun _ => False) (processEntry update.device_id) update.readings
    (fun db2 r _ h2 => by
      obtain ⟨h3, h4⟩ := processEntry_no_triggers update.device_id db2 r h2
      exact ⟨h3, [], by rw [List.append_nil]; exact h4,
        fun n hn => absurd hn (List.not_mem_nil n)⟩)
    db h
  have hext : ext = [] := by
    cases ext with
    | nil => rfl
    | cons a l => exact absurd (hfalse a (List.mem_cons_self _ _)) id
  subst hext
  rw [List.append_nil] at hnot1
  rcases hs : foldE (processEntry update.device_id) db update.readings with ⟨db1, r1⟩
  rw [hs] at hinv1 hnot1
  cases r1 with
  | error e => exact hnot1
  | ok v =>
    dsimp only
    rcases havg : update.average_temperature with _ | avg
    · exact hnot1
    · dsimp only
      obtain ⟨-, h5⟩ := store_no_triggers db1 update.device_id avg none true hinv1
      rcases hr2 : store_temperature_reading db1 update.device_id avg none true
        with ⟨db2, r2⟩
      rw [hr2] at h5
      cases r2 with
      | error e => exact h5.trans hnot1
      | ok v2 => exact h5.trans hnot1

theorem check_triggers_fires (cfg : Config) (db : DB) (device_id : String)
    (device : Device) (temperature : Rat) (probe_id : Option String)
    (is_average : Bool) (u : User) (s : NotificationSetting) (m : Rat)
    (hdev : findDevice db device_id = some device)
    (hu : u ∈ owners db device)
    (hs : findSetting db u.id = some s)
    (hm : s.max_temp_threshold = some m)
    (ht : temperature > m)
    (hpush : s.push_enabled = true)
    (hcfg : cfg.PUSH_ENABLED = true) :
    (((check_temperature_triggers cfg db device_id temperature probe_id
        is_average).1).notifications.filter
      (fun n => n.user_id == some u.id &&
        n.notification_type == "temperature_alert")).length >
    (db.notifications.filter (fun n => n.user_id == some u.id &&
        n.notification_type == "temperature_alert")).length := by
  unfold check_temperature_triggers
  rw [hdev]
  dsimp only
  exact foldE_fires
    (fun d => d.notification_settings = db.notification_settings ∧ d.users = db.users)
    (checkOwner cfg device temperature (probe_id.bind (fun pid => findProbe db pid)))
    (fun n => n.user_id == some u.id && n.notification_type == "temperature_alert")
    u (owners db device)
    (fun db3 y _ h3 => by
      obtain ⟨hset3, husers3, -⟩ := checkOwner_spec cfg device temperature
        (probe_id.bind (fun pid => findProbe db pid)) db3 y
      exact ⟨hset3.trans h3.1, husers3.trans h3.2⟩)
    (fun db3 y _ => by
      obtain ⟨-, -, ext, he, -⟩ := checkOwner_spec cfg device temperature
        (probe_id.bind (fun pid => findProbe db pid)) db3 y
      exact ⟨ext, he⟩)
    (fun db3 y hy h3 => checkOwner_ok cfg device temperature
      (probe_id.bind (fun pid => findProbe db pid)) db3 y
      (by rw [findUser_congr y.id h3.2]
          exact findUser_isSome_of_mem (mem_users_of_mem_owners hy)))
    (fun db3 h3 => checkOwner_fires cfg device temperature
      (probe_id.bind (fun pid => findProbe db pid)) db3 u s m
      (by rw [findSetting_congr u.id h3.1]; exact hs)
      hm ht hpush hcfg
      (by rw [findUser_congr u.id h3.2]
          exact findUser_isSome_of_mem (mem_users_of_mem_owners hu))
      (fun n => n.user_id == some u.id && n.notification_type == "temperature_alert")
      (fun n h1 h2 => by simp [h1, h2]))
    db ⟨rfl, rfl⟩ hu

theorem check_triggers_between (cfg : Config) (db : DB) (device_id : String)
    (device : Device) (temperature : Rat) (probe_id : Option String)
    (is_average : Bool)
    (hdev : findDevice db device_id = some device)
    (hno : ∀ v ∈ owners db device, ∀ s, findSetting db v.id = some s →
      (∀ m, s.max_temp_threshold = some m → temperature ≤ m) ∧
      (∀ m, s.min_temp_threshold = some m → m ≤ temperature)) :
    ((check_temperature_triggers cfg db device_id temperature probe_id
        is_average).1).notifications.filter
      (fun n => n.notification_type == "temperature_alert") =
    db.notifications.filter (fun n => n.notification_type == "temperature_alert") := by
  unfold check_temperature_triggers
  rw [hdev]
  dsimp only
  exact foldE_filter_pres
    (fun d => d.notification_settings = db.notification_settings)
    (checkOwner cfg device temperature (probe_id.bind (fun pid => findProbe db pid)))
    (fun n => n.notification_type == "temperature_alert")
    (owners db device)
    (fun db3 y _ h3 => by
      obtain ⟨hset3, -, -⟩ := checkOwner_spec cfg device temperature
        (probe_id.bind (fun pid => findProbe db pid)) db3 y
      exact hset3.trans h3)
    (fun db3 y hy h3 => by
      obtain ⟨-, -, ext, he, hprop⟩ := checkOwner_spec cfg device temperature
        (probe_id.bind (fun pid => findProbe db pid)) db3 y
      refine ⟨ext, he, fun n hn => ?_⟩
      obtain ⟨-, hcase⟩ := hprop n hn
      rcases hcase with hct | ⟨hta, s, hsfind, hfired⟩
      · show (n.notification_type == "temperature_alert") = false
        rw [hct]
        rfl
      · rw [findSetting_congr y.id h3] at hsfind
        obtain ⟨hmax, hmin⟩ := hno y hy s hsfind
        rcases hfired with ⟨mth, hmth, hgt⟩ | ⟨mth, hmth, hlt⟩
        · exact absurd hgt (not_lt.mpr (hmax mth hmth))
        · exact absurd hlt (not_lt.mpr (hmin mth hmth)))
    db rfl

/-- C2 counterexample: in `exDB` alice owns the device, her settings carry a
max threshold of 200 with the push channel enabled, and the update stores a
reading of 210; yet `process_temperature_update` ends with no notification at
all, because the temperature-update flow never invokes
`check_temperature_triggers`. -/
theorem C2_counterexample :
    exSetting.max_temp_threshold = some 200 ∧
    (210 : Rat) > 200 ∧
    findDevice exDB "CCT-AB12-CD34" = some exDevice ∧
    aliceUser ∈ owners exDB exDevice ∧
    findSetting exDB aliceUser.id = some exSetting ∧
    exSetting.push_enabled = true ∧
    defaultConfig.PUSH_ENABLED = true ∧
    (process_temperature_update exDB exUpdate210).1.readings.map
      (fun r => r.temperature) = [(210 : Rat)] ∧
    (process_temperature_update exDB exUpdate210).2.isOk = true ∧
    (process_temperature_update exDB exUpdate210).1.notifications = [] := by
  decide

/-- C2: Corrected.  `process_temperature_update` never invokes
`check_temperature_triggers` (the routine is dead code in the update flow),
so with no custom triggers present the flow creates no notification at all,
whatever the thresholds.  The global-threshold rules hold only of
`check_temperature_triggers` itself when it is called directly: a reading
strictly above an owning user's max threshold then strictly increases that
user's count of `temperature_alert` notifications (push channel enabled),
and a reading at or between every owner's thresholds leaves the
`temperature_alert` notifications unchanged. -/
theorem C2_threshold_rules (cfg : Config) (db : DB)
    (update : TemperatureUpdateRequest) (device_id : String) (device : Device)
    (temperature : Rat) (probe_id : Option String) (is_average : Bool)
    (u : User) (s : NotificationSetting) (m : Rat) :
    (db.triggers = [] →
      (process_temperature_update db update).1.notifications =
        db.notifications) ∧
    (findDevice db device_id = some device → u ∈ owners db device →
      findSetting db u.id = some s → s.max_temp_threshold = some m →
      temperature > m → s.push_enabled = true → cfg.PUSH_ENABLED = true →
      (((check_temperature_triggers cfg db device_id temperature probe_id
          is_average).1).notifications.filter
        (fun n => n.user_id == some u.id &&
          n.notification_type == "temperature_alert")).length >
      (db.notifications.filter (fun n => n.user_id == some u.id &&
          n.notification_type == "temperature_alert")).length) ∧
    (findDevice db device_id = some device →
      (∀ v ∈ owners db device, ∀ s2, findSetting db v.id = some s2 →
        (∀ m2, s2.max_temp_threshold = some m2 → temperature ≤ m2) ∧
        (∀ m2, s2.min_temp_threshold = some m2 → m2 ≤ temperature)) →
      ((check_temperature_triggers cfg db device_id temperature probe_id
          is_average).1).notifications.filter
        (fun n => n.notification_type == "temperature_alert") =
      db.notifications.filter
        (fun n => n.notification_type == "temperature_alert")) :=
  ⟨fun h => process_update_no_notifications db update h,
   fun hdev hu hs hm ht hpush hcfg =>
     check_triggers_fires cfg db device_id device temperature probe_id
       is_average u s m hdev hu hs hm ht hpush hcfg,
   fun hdev hno =>
     check_triggers_between cfg db device_id device temperature probe_id
       is_average hdev hno⟩

theorem C2_threshold_rules_witness :
    (process_temperature_update exDB exUpdate210).1.notifications =
      exDB.notifications ∧
    (((check_temperature_triggers defaultConfig exDB "CCT-AB12-CD34" 210 none
        false).1).notifications.filter
      (fun n => n.user_id == some aliceUser.id &&
        n.notification_type == "temperature_alert")).length >
    (exDB.notifications.filter (fun n => n.user_id == some aliceUser.id &&
        n.notification_type == "temperature_alert")).length ∧
    ((check_temperature_triggers defaultConfig exDB "CCT-AB12-CD34" 150 none
        false).1).notifications.filter
      (fun n => n.notification_type == "temperature_alert") =
    exDB.notifications.filter
      (fun n => n.notification_type == "temperature_alert") := by
  refine ⟨(C2_threshold_rules defaultConfig exDB exUpdate210 "CCT-AB12-CD34"
      exDevice 210 none false aliceUser exSetting 200).1 (by decide),
    (C2_threshold_rules defaultConfig exDB exUpdate210 "CCT-AB12-CD34"
      exDevice 210 none false aliceUser exSetting 200).2.1 (by decide)
      (by decide) (by decide) (by decide) (by norm_num) (by decide) (by decide),
    (C2_threshold_rules defaultConfig exDB exUpdate210 "CCT-AB12-CD34"
      exDevice 150 none false aliceUser exSetting 200).2.2 (by decide) ?_⟩
  intro v hv s2 hs2
  have hov : owners exDB exDevice = [aliceUser] := by decide
  rw [hov] at hv
  have hva : v = aliceUser := List.eq_of_mem_singleton hv
  subst hva
  have hfs : findSetting exDB aliceUser.id = some exSetting := by decide
  rw [hfs] at hs2
  have hs2e : s2 = exSetting := (Option.some.inj hs2).symm
  subst hs2e
  constructor
  · intro m2 hm2
    have h200 : exSetting.max_temp_threshold = some 200 := rfl
    rw [h200] at hm2
    have h2 : (200 : Rat) = m2 := Option.some.inj hm2
    rw [← h2]
    norm_num
  · intro m2 hm2
    have hmin : exSetting.min_temp_threshold = none := rfl
    rw [hmin] at hm2
    cases hm2

/-! ### C1: the active-target invariant -/

theorem deactivateTargets_active_self (devId : Nat) (ts : List TargetTemperature) :
    (deactivateTargets devId ts).filter
      (fun t => t.device_id == devId && t.is_active) = [] := by
  rw [List.filter_eq_nil_iff]
  intro t ht
  unfold deactivateTargets at ht
  obtain ⟨t0, ht0, rfl⟩ := List.mem_map.mp ht
  by_cases hc : (t0.device_id == devId && t0.is_active) = true
  · rw [if_pos hc]
    simp
  · rw [if_neg hc]
    exact fun h => hc h

theorem deactivateTargets_active_other (devId devId2 : Nat) (hne : devId2 ≠ devId)
    (ts : List TargetTemperature) :
    (deactivateTargets devId ts).filter
      (fun t => t.device_id == devId2 && t.is_active) =
    ts.filter (fun t => t.device_id == devId2 && t.is_active) := by
  unfold deactivateTargets
  induction ts with
  | nil => rfl
  | cons t0 ts ih =>
    rw [List.map_cons]
    by_cases hc : (t0.device_id == devId && t0.is_active) = true
    · rw [if_pos hc]
      have hdev : t0.device_id = devId := by
        have hc2 := hc
        simp only [Bool.and_eq_true] at hc2
        exact eq_of_beq hc2.1
      have h1 : ((({ t0 with is_active := false } : TargetTemperature).device_id
          == devId2) && ({ t0 with is_active := false } : TargetTemperature).is_active)
          = false := by
        simp
      have h2 : (t0.device_id == devId2 && t0.is_active) = false := by
        rw [hdev]
        simp [Ne.symm hne]
      rw [List.filter_cons, List.filter_cons]
      simp only [h1, h2, Bool.false_eq_true, if_false]
      exact ih
    · rw [if_neg hc, List.filter_cons, List.filter_cons, ih]

theorem deactivateTargets_history (devId : Nat) (ts : List TargetTemperature)
    (t : TargetTemperature) (ht : t ∈ ts) :
    ∃ t2 ∈ deactivateTargets devId ts, t2.id = t.id ∧
      t2.temperature = t.temperature ∧ t2.device_id = t.device_id ∧
      t2.timestamp = t.timestamp ∧ t2.set_by_user_id = t.set_by_user_id := by
  unfold deactivateTargets
  refine ⟨if t.device_id == devId && t.is_active then
      { t with is_active := false } else t,
    List.mem_map_of_mem _ ht, ?_⟩
  by_cases hc : (t.device_id == devId && t.is_active) = true
  · rw [if_pos hc]
    exact ⟨rfl, rfl, rfl, rfl, rfl⟩
  · rw [if_neg hc]
    exact ⟨rfl, rfl, rfl, rfl, rfl⟩

theorem create_user_targets (db : DB) (user : UserCreate) :
    (create_user db user).1.targets = db.targets := by
  unfold create_user
  split
  · split_ifs <;> rfl
  · rfl

theorem upsertDeviceRow_targets (db : DB) (device : DeviceRegistrationRequest) :
    (upsertDeviceRow db device).1.targets = db.targets := by
  unfold upsertDeviceRow
  rcases findDevice db device.device_id with _ | d <;> rfl

theorem register_device_targets (cfg : Config) (db : DB)
    (device : DeviceRegistrationRequest) (entropy : String) :
    (register_device cfg db device entropy).1.targets = db.targets := by
  unfold register_device
  split_ifs
  · rfl
  · exact upsertDeviceRow_targets db device

theorem register_probe_targets (cfg : Config) (db : DB)
    (probe : ProbeRegistrationRequest) (device_id : String) :
    (register_probe cfg db probe device_id).1.targets = db.targets := by
  unfold register_probe
  rcases findDevice db device_id with _ | device
  · rfl
  · dsimp only
    rcases findProbe db probe.probe_id with _ | p
    · dsimp only
      split_ifs <;> rfl
    · rfl

theorem associate_targets (db : DB) (device_id : String) (user_id : Nat) :
    (associate_device_with_user db device_id user_id).1.targets = db.targets := by
  unfold associate_device_with_user
  rcases findDevice db device_id with _ | device
  · rfl
  · dsimp only
    rcases findUser db user_id with _ | user
    · rfl
    · dsimp only
      split_ifs <;> rfl

theorem update_settings_targets (db : DB) (user_id : Nat)
    (u : NotificationSettingUpdate) :
    (update_notification_settings db user_id u).1.targets = db.targets := by
  unfold update_notification_settings
  rcases findSetting db user_id with _ | s <;> rfl

theorem create_trigger_targets (db : DB) (user_id : Nat)
    (trigger : CustomTriggerCreate) :
    (create_custom_trigger db user_id trigger).1.targets = db.targets := by
  unfold create_custom_trigger
  rcases findSetting db user_id with _ | s
  · rfl
  · dsimp only
    rcases trigger.device_id with _ | did <;> rcases trigger.probe_id with _ | pid <;>
      try dsimp only
    all_goals
      first
      | rfl
      | (split_ifs <;> rfl)

theorem storeCore_targets (db : DB) (device : Device) (probe : Option Probe)
    (temperature : Rat) (is_average : Bool) :
    (storeCore db device probe temperature is_average).1.targets = db.targets := by
  unfold storeCore
  rcases probe with _ | p
  · exact (foldl_preserves (fun d => d.targets) _
      (fun db2 t => storeTrigger_targets device none temperature db2 t) _ _).trans rfl
  · exact (foldl_preserves (fun d => d.targets) _
      (fun db2 t => storeTrigger_targets device (some p) temperature db2 t) _ _).trans rfl

theorem store_reading_targets (db : DB) (device_id : String) (temperature : Rat)
    (probe_id : Option String) (is_average : Bool) :
    (store_temperature_reading db device_id temperature probe_id
      is_average).1.targets = db.targets := by
  unfold store_temperature_reading
  rcases findDevice db device_id with _ | device
  · rfl
  · dsimp only
    rcases probe_id with _ | pid
    · exact storeCore_targets db device none temperature is_average
    · dsimp only
      rcases findProbe db pid with _ | probe
      · rfl
      · exact storeCore_targets db device (some probe) temperature is_average

theorem processEntry_targets (device_id : String) (db : DB) (r : ProbeReadingEntry) :
    (processEntry device_id db r).1.targets = db.targets := by
  unfold processEntry
  rcases r with ⟨rpid, rtemp⟩
  rcases rtemp with _ | t
  · rfl
  · exact store_reading_targets db device_id t rpid false

theorem process_update_targets (db : DB) (update : TemperatureUpdateRequest) :
    (process_temperature_update db update).1.targets = db.targets := by
  unfold process_temperature_update
  rcases hs : foldE (processEntry update.device_id) db update.readings with ⟨db1, r1⟩
  have h1 : db1.targets = db.targets := by
    have h := foldE_preserves (fun d => d.targets) (processEntry update.device_id)
      (fun db2 r => processEntry_targets update.device_id db2 r) update.readings db
    rw [hs] at h
    exact h
  cases r1 with
  | error e => exact h1
  | ok v =>
    dsimp only
    rcases havg : update.average_temperature with _ | avg
    · exact h1
    · dsimp only
      rcases hr2 : store_temperature_reading db1 update.device_id avg none true
        with ⟨db2, r2⟩
      have h2 : db2.targets = db1.targets := by
        have h := store_reading_targets db1 update.device_id avg none true
        rw [hr2] at h
        exact h
      cases r2 with
      | error e => exact h2.trans h1
      | ok v2 => exact h2.trans h1

theorem sync_settings_targets (db : DB) (device_id : String) :
    (sync_device_settings db device_id).1.targets = db.targets := by
  unfold sync_device_settings
  rcases findDevice db device_id with _ | device <;> rfl

theorem check_triggers_targets (cfg : Config) (db : DB) (device_id : String)
    (temperature : Rat) (probe_id : Option String) (is_average : Bool) :
    (check_temperature_triggers cfg db device_id temperature probe_id
      is_average).1.targets = db.targets := by
  unfold check_temperature_triggers
  rcases findDevice db device_id with _ | device
  · rfl
  · dsimp only
    exact foldE_preserves (fun d => d.targets) _
      (fun db2 y => checkOwner_targets cfg device temperature
        (probe_id.bind (fun pid => findProbe db pid)) db2 y) _ db

theorem notifyLostOwner_targets (cfg : Config) (device : Device)
    (probe : Option Probe) (db : DB) (owner : User) :
    (notifyLostOwner cfg device probe db owner).1.targets = db.targets := by
  unfold notifyLostOwner
  rcases findSetting db owner.id with _ | s
  · rfl
  · dsimp only
    split_ifs
    · rfl
    · rcases probe with _ | p
      · exact send_notification_targets cfg db owner.id _ _ _ _ _
      · exact send_notification_targets cfg db owner.id _ _ _ _ _

theorem notify_lost_targets (cfg : Config) (db : DB) (device_id : String)
    (probe_id : Option String) :
    (notify_connection_lost cfg db device_id probe_id).1.targets = db.targets := by
  unfold notify_connection_lost
  rcases findDevice db device_id with _ | device
  · rfl
  · dsimp only
    exact foldE_preserves (fun d => d.targets) _
      (fun db2 y => notifyLostOwner_targets cfg device
        (probe_id.bind (fun pid => findProbe db pid)) db2 y) _ db

theorem staleDeviceStep_targets (cfg : Config) (now : Nat) (db : DB)
    (device : Device) :
    (staleDeviceStep cfg now db device).1.targets = db.targets := by
  unfold staleDeviceStep
  rcases device.last_connected with _ | lc
  · rfl
  · dsimp only
    split_ifs
    · rcases hn : notify_connection_lost cfg db device.device_id none with ⟨db1, r⟩
      have h1 : db1.targets = db.targets := by
        have h := notify_lost_targets cfg db device.device_id none
        rw [hn] at h
        exact h
      cases r with
      | error e => exact h1
      | ok v => exact h1
    · rfl

theorem staleProbeStep_targets (cfg : Config) (now : Nat) (db : DB) (probe : Probe) :
    (staleProbeStep cfg now db probe).1.targets = db.targets := by
  unfold staleProbeStep
  rcases probe.last_connected with _ | lc
  · rfl
  · dsimp only
    split_ifs
    · cases hfd : db.devices.find? (fun d => d.id == probe.device_id) with
      | none => rfl
      | some device =>
        dsimp only
        rcases hn : notify_connection_lost cfg db device.device_id
            (some probe.probe_id) with ⟨db1, r⟩
        have h1 : db1.targets = db.targets := by
          have h := notify_lost_targets cfg db device.device_id (some probe.probe_id)
          rw [hn] at h
          exact h
        cases r with
        | error e => exact h1
        | ok v => exact h1
    · rfl

theorem check_status_targets (cfg : Config) (db : DB) :
    (check_connection_status cfg db).1.targets = db.targets := by
  unfold check_connection_status
  dsimp only
  cases hs : foldE (staleDeviceStep cfg db.now) db
      (db.devices.filter (fun d => d.is_active)) with
  | mk db1 r1 =>
    have h1 : db1.targets = db.targets := by
      have h := foldE_preserves (fun d => d.targets) (staleDeviceStep cfg db.now)
        (fun db2 d => staleDeviceStep_targets cfg db.now db2 d)
        (db.devices.filter (fun d => d.is_active)) db
      rw [hs] at h
      exact h
    cases r1 with
    | error e => exact h1
    | ok v =>
      dsimp only
      exact (foldE_preserves (fun d => d.targets) (staleProbeStep cfg db1.now)
        (fun db2 p => staleProbeStep_targets cfg db1.now db2 p)
        (db1.probes.filter (fun p => p.is_connected)) db1).trans h1

theorem mark_read_targets (db : DB) (notification_id user_id : Nat) :
    (mark_notification_as_read db notification_id user_id).1.targets = db.targets := by
  unfold mark_notification_as_read
  split <;> rfl

theorem mark_all_read_targets (db : DB) (user_id : Nat) :
    (mark_all_notifications_as_read db user_id).1.targets = db.targets := rfl

theorem set_target_targets (db : DB) (device_id : String) (temperature : Rat)
    (set_by_user_id : Option Nat) :
    (set_target_temperature db device_id temperature set_by_user_id).1.targets
      = db.targets ∨
    ∃ d new, (set_target_temperature db device_id temperature
        set_by_user_id).1.targets = deactivateTargets d db.targets ++ [new] ∧
      new.device_id = d := by
  unfold set_target_temperature
  rcases findDevice db device_id with _ | device
  · exact Or.inl rfl
  · exact Or.inr ⟨device.id, _, rfl, rfl⟩

theorem set_target_device_targets (db : DB) (device_id : String)
    (temperature : Rat) :
    (update_target_temperature_from_device db device_id temperature).1.targets
      = db.targets ∨
    ∃ d new, (update_target_temperature_from_device db device_id
        temperature).1.targets = deactivateTargets d db.targets ++ [new] ∧
      new.device_id = d := by
  unfold update_target_temperature_from_device
  rcases findDevice db device_id with _ | device
  · exact Or.inl rfl
  · exact Or.inr ⟨device.id, _, rfl, rfl⟩

theorem set_target_cloud_targets (db : DB) (device_id : String)
    (temperature : Rat) (user_id : Nat) :
    (update_target_temperature_from_cloud db device_id temperature
        user_id).1.targets = db.targets ∨
    ∃ d new, (update_target_temperature_from_cloud db device_id temperature
        user_id).1.targets = deactivateTargets d db.targets ++ [new] ∧
      new.device_id = d := by
  unfold update_target_temperature_from_cloud
  rcases findDevice db device_id with _ | device
  · exact Or.inl rfl
  · dsimp only
    split_ifs
    · exact Or.inl rfl
    · exact Or.inr ⟨device.id, _, rfl, rfl⟩

theorem step_targets (cfg : Config) (db : DB) (op : Op) :
    (step cfg db op).targets = db.targets ∨
    ∃ d new, (step cfg db op).targets = deactivateTargets d db.targets ++ [new] ∧
      new.device_id = d := by
  cases op with
  | opCreateUser user => exact Or.inl (create_user_targets db user)
  | opRegisterDevice req entropy =>
    exact Or.inl (register_device_targets cfg db req entropy)
  | opRegisterProbe req device_id =>
    exact Or.inl (register_probe_targets cfg db req device_id)
  | opAssociate device_id user_id =>
    exact Or.inl (associate_targets db device_id user_id)
  | opUpdateSettings user_id u => exact Or.inl (update_settings_targets db user_id u)
  | opCreateTrigger user_id trigger =>
    exact Or.inl (create_trigger_targets db user_id trigger)
  | opStoreReading device_id temperature probe_id is_average =>
    exact Or.inl (store_reading_targets db device_id temperature probe_id is_average)
  | opProcessUpdate req => exact Or.inl (process_update_targets db req)
  | opSetTarget device_id temperature set_by_user_id =>
    exact set_target_targets db device_id temperature set_by_user_id
  | opSetTargetFromDevice device_id temperature =>
    exact set_target_device_targets db device_id temperature
  | opSetTargetFromCloud device_id temperature user_id =>
    exact set_target_cloud_targets db device_id temperature user_id
  | opSyncSettings device_id => exact Or.inl (sync_settings_targets db device_id)
  | opSendNotification user_id title message ntype device_id probe_id =>
    exact Or.inl (send_notification_targets cfg db user_id title message ntype
      device_id probe_id)
  | opCheckTriggers device_id temperature probe_id is_average =>
    exact Or.inl (check_triggers_targets cfg db device_id temperature probe_id
      is_average)
  | opNotifyConnectionLost device_id probe_id =>
    exact Or.inl (notify_lost_targets cfg db device_id probe_id)
  | opCheckConnectionStatus => exact Or.inl (check_status_targets cfg db)
  | opMarkRead notification_id user_id =>
    exact Or.inl (mark_read_targets db notification_id user_id)
  | opMarkAllRead user_id => exact Or.inl (mark_all_read_targets db user_id)

theorem activeTargets_step (cfg : Config) (db : DB) (op : Op) (devId : Nat)
    (h : (db.targets.filter
      (fun t => t.device_id == devId && t.is_active)).length ≤ 1) :
    ((step cfg db op).targets.filter
      (fun t => t.device_id == devId && t.is_active)).length ≤ 1 := by
  rcases step_targets cfg db op with heq | ⟨d, new, heq, hdev⟩
  · rw [heq]
    exact h
  · rw [heq, List.filter_append]
    by_cases hd : devId = d
    · subst hd
      rw [deactivateTargets_active_self]
      simp only [List.nil_append]
      rcases hpn : (new.device_id == devId && new.is_active) with _ | _ <;>
        simp [List.filter_cons, hpn]
    · rw [deactivateTargets_active_other d devId hd]
      have hnew : (new.device_id == devId && new.is_active) = false := by
        rw [hdev]
        simp [Ne.symm hd]
      have h0 : (([new] : List TargetTemperature).filter
          (fun t => t.device_id == devId && t.is_active)).length = 0 := by
        simp [List.filter_cons, hnew]
      rw [List.length_append, h0]
      omega

theorem step_history (cfg : Config) (db : DB) (op : Op) :
    ∀ t ∈ db.targets, ∃ t2 ∈ (step cfg db op).targets,
      t2.id = t.id ∧ t2.temperature = t.temperature ∧
      t2.device_id = t.device_id ∧ t2.timestamp = t.timestamp ∧
      t2.set_by_user_id = t.set_by_user_id := by
  intro t ht
  rcases step_targets cfg db op with heq | ⟨d, new, heq, hdev⟩
  · exact ⟨t, by rw [heq]; exact ht, rfl, rfl, rfl, rfl, rfl⟩
  · obtain ⟨t2, ht2, hp⟩ := deactivateTargets_history d db.targets t ht
    exact ⟨t2, by rw [heq]; exact List.mem_append_left _ ht2, hp⟩

theorem applyOps_active_le (cfg : Config) (ops : List Op) (db : DB) (devId : Nat)
    (h : (db.targets.filter
      (fun t => t.device_id == devId && t.is_active)).length ≤ 1) :
    ((applyOps cfg db ops).targets.filter
      (fun t => t.device_id == devId && t.is_active)).length ≤ 1 := by
  induction ops generalizing db with
  | nil => exact h
  | cons op ops ih => exact ih (step cfg db op) (activeTargets_step cfg db op devId h)

/-- C1: in every state reachable by the operations of the core, each device
has at most one active target-temperature row (the three setters deactivate
every active row of the device before inserting the new active one), and no
operation ever deletes a target-temperature row or alters its recorded id,
temperature, device, timestamp or setting user: deactivation only flips
`is_active`, so history is preserved. -/
theorem C1_single_active_target (cfg : Config) (db : DB) (h : Reachable cfg db)
    (devId : Nat) :
    (db.targets.filter
      (fun t => t.device_id == devId && t.is_active)).length ≤ 1 ∧
    ∀ op : Op, ∀ t ∈ db.targets, ∃ t2 ∈ (step cfg db op).targets,
      t2.id = t.id ∧ t2.temperature = t.temperature ∧
      t2.device_id = t.device_id ∧ t2.timestamp = t.timestamp ∧
      t2.set_by_user_id = t.set_by_user_id := by
  obtain ⟨ops, hops⟩ := h
  constructor
  · rw [← hops]
    exact applyOps_active_le cfg ops DB.empty devId (Nat.zero_le 1)
  · exact fun op => step_history cfg db op

theorem C1_single_active_target_witness :
    ((c1DB.targets.filter
      (fun t => t.device_id == 1 && t.is_active)).length ≤ 1) ∧
    ∀ op : Op, ∀ t ∈ c1DB.targets, ∃ t2 ∈ (step defaultConfig c1DB op).targets,
      t2.id = t.id ∧ t2.temperature = t.temperature ∧
      t2.device_id = t.device_id ∧ t2.timestamp = t.timestamp ∧
      t2.set_by_user_id = t.set_by_user_id :=
  C1_single_active_target defaultConfig c1DB ⟨c1Ops, rfl⟩ 1

end CCT
